import Mathlib

/-!
Verification of the outfit virtual try-on state logic.

This file shallowly embeds the client-side state machine of the repository
(`src/unnamed/part_001`, the `App` component) together with its data model
(`src/unnamed/part_000`, `types.ts`).  React `useState` cells become fields of
an `AppState` structure; every event handler becomes a pure state-transition
function.  A call to the external generative-image service is modelled by an
`Except String String` argument (`.ok url` for a successful generation,
`.error msg` for a thrown error), and each handler additionally returns an
`Option String` recording whether the service was invoked and, when it was,
with which base image.  JavaScript `Record<string, string>` objects become
association lists in key-insertion order (JS objects enumerate non-numeric
string keys in insertion order); JS string truthiness (`if (x)` on a possibly
missing string) is modelled explicitly.
-/

set_option maxRecDepth 100000

namespace Outfit

/-- `WardrobeItem` from `types.ts`. -/
structure WardrobeItem where
  id : String
  name : String
  url : String
deriving DecidableEq, Repr

/-- `OutfitLayer` from `types.ts`: `garment` is `null` for the base model
layer; `generatedImages` maps a composite key to an image URL.  The record is
modelled as an association list in key-insertion order. -/
structure OutfitLayer where
  garment : Option WardrobeItem
  generatedImages : List (String × String)
deriving DecidableEq, Repr

/-- The `useState` cells of the `App` component. -/
structure AppState where
  modelImageUrl : Option String
  outfitHistory : List OutfitLayer
  currentOutfitIndex : Nat
  isLoading : Bool
  loadingMessage : String
  error : Option String
  currentPoseInstruction : String
  currentEmotionInstruction : String
  currentBackgroundInstruction : String
  currentColorInstruction : String
  isSheetCollapsed : Bool
  wardrobe : List WardrobeItem
deriving DecidableEq, Repr

/-- `POSE_INSTRUCTIONS` from the App component. -/
def POSE_INSTRUCTIONS : List String :=
  ["Full frontal view, hands on hips",
   "Slightly turned, 3/4 view",
   "Side profile view",
   "Jumping in the air, mid-action shot",
   "Walking towards camera",
   "Leaning against a wall"]

/-- `EMOTION_INSTRUCTIONS` from the App component. -/
def EMOTION_INSTRUCTIONS : List String := ["Neutral", "Happy", "Sad", "Serious"]

/-- `BACKGROUND_INSTRUCTIONS` from the App component. -/
def BACKGROUND_INSTRUCTIONS : List String :=
  ["Neutral studio backdrop", "City street at night", "Serene beach at sunset",
   "Lush green forest", "Modern art gallery"]

/-- `COLOR_INSTRUCTIONS` from the App component. -/
def COLOR_INSTRUCTIONS : List String :=
  ["Original", "Vibrant Red", "Deep Blue", "Forest Green", "Classic Black",
   "Pure White", "Sunny Yellow", "Hot Pink"]

/-- `POSE_INSTRUCTIONS[0]`. -/
def defaultPose : String := POSE_INSTRUCTIONS.headD ""

/-- `EMOTION_INSTRUCTIONS[0]`. -/
def defaultEmotion : String := EMOTION_INSTRUCTIONS.headD ""

/-- `BACKGROUND_INSTRUCTIONS[0]`. -/
def defaultBackground : String := BACKGROUND_INSTRUCTIONS.headD ""

/-- `COLOR_INSTRUCTIONS[0]`. -/
def defaultColor : String := COLOR_INSTRUCTIONS.headD ""

/-- The template literal `` `${p}_${e}_${b}_${c}` `` used throughout the App
component to build cache keys. -/
def compositeKey (p e b c : String) : String :=
  p ++ "_" ++ e ++ "_" ++ b ++ "_" ++ c

/-- The level-1 fallback pattern `` `${p}_${e}_${b}_` `` of `displayImageUrl`. -/
def levelPre1 (p e b : String) : String := p ++ "_" ++ e ++ "_" ++ b ++ "_"

/-- The level-2 fallback pattern `` `${p}_${e}_` `` of `displayImageUrl`. -/
def levelPre2 (p e : String) : String := p ++ "_" ++ e ++ "_"

/-- The level-3 fallback pattern `` `${p}_` `` of `displayImageUrl`. -/
def levelPre3 (p : String) : String := p ++ "_"

/-- The `initialKey` / `imageKey` built from the four default instructions in
`handleModelFinalized` and `handleGarmentSelect`. -/
def initialKey : String :=
  compositeKey defaultPose defaultEmotion defaultBackground defaultColor

/-- JavaScript `key.startsWith(pre)`, on the character sequences. -/
def jsStartsWith (pre s : String) : Bool := pre.data.isPrefixOf s.data

/-- JavaScript `key.split('_')[0]` as used in `availablePoseKeys` (the pose
component the code itself attributes to a cache key): the characters before
the first underscore. -/
def keyPose (k : String) : String := String.mk (k.data.takeWhile (fun ch => !(ch == '_')))

/-- A string containing no underscore character. -/
def underscoreFree (x : String) : Bool := x.data.all (fun ch => !(ch == '_'))

/-- JavaScript property read `m[k]` on a `Record<string, string>`:
the value of the first (only, for genuine JS records) entry with key `k`. -/
def rlookup : List (String × String) → String → Option String
  | [], _ => none
  | (k', v) :: rest, k => if k' == k then some v else rlookup rest k

/-- JavaScript string truthiness of a possibly-missing property:
`undefined` and the empty string are falsy. -/
def truthyS : Option String → Bool
  | none => false
  | some v => !(v == "")

/-- JavaScript property write `m[k] = v` on a `Record<string, string>`:
overwrites the entry in place when the key is present, appends otherwise. -/
def recordSet : List (String × String) → String → String → List (String × String)
  | [], k, v => [(k, v)]
  | (k', v') :: rest, k, v =>
    if k' == k then (k, v) :: rest else (k', v') :: recordSet rest k v

/-- The in-place mutation `newHistory[i].generatedImages[key] = url` performed
by the variation handlers inside `setOutfitHistory`. -/
def updateLayer : List OutfitLayer → Nat → String → String → List OutfitLayer
  | [], _, _, _ => []
  | L :: rest, 0, k, v => { L with generatedImages := recordSet L.generatedImages k v } :: rest
  | L :: rest, i + 1, k, v => L :: updateLayer rest i k v

/-- Modelled from the spec: `getFriendlyErrorMessage` lives in `lib/utils`,
which is not under `src/`; the claims only require that the stored error
message is derived from the thrown value together with the handler's fallback
label, so it is modelled as their plain combination. -/
def getFriendlyErrorMessage (err fallback : String) : String :=
  fallback ++ ": " ++ err

/-- Modelled from the spec: `defaultWardrobe` lives in `wardrobe.ts`, which is
not under `src/`; no claim depends on its contents, so it is modelled as an
unspecified fixed list. -/
def defaultWardrobe : List WardrobeItem := []

/-- The `displayImageUrl` memo (App component, lines 81-108): primary lookup
under the composite key of the four current instructions, then prefix
fallbacks over the key enumeration, then the first value of the map. -/
def displayImageUrl (s : AppState) : Option String :=
  if s.outfitHistory.length == 0 then s.modelImageUrl else
  match s.outfitHistory[s.currentOutfitIndex]? with
  | none => s.modelImageUrl
  | some currentLayer =>
    let m := currentLayer.generatedImages
    let primaryKey := compositeKey s.currentPoseInstruction s.currentEmotionInstruction
        s.currentBackgroundInstruction s.currentColorInstruction
    if truthyS (rlookup m primaryKey) then rlookup m primaryKey
    else
      let keys := m.map Prod.fst
      match keys.find? (fun k => jsStartsWith (levelPre1 s.currentPoseInstruction
          s.currentEmotionInstruction s.currentBackgroundInstruction) k) with
      | some k => rlookup m k
      | none =>
        match keys.find? (fun k => jsStartsWith (levelPre2 s.currentPoseInstruction
            s.currentEmotionInstruction) k) with
        | some k => rlookup m k
        | none =>
          match keys.find? (fun k => jsStartsWith (levelPre3 s.currentPoseInstruction) k) with
          | some k => rlookup m k
          | none => (m.map Prod.snd).head?

/-- The fallback chain of claim C1, written after the claim's words: at each
level "the first key (in the map's key-enumeration order) starting with" the
level's pattern is used, and as a last resort "the first value in the map". -/
def specFallback (m : List (String × String)) (p e b : String) : Option String :=
  match ((m.map Prod.fst).filter (fun k => jsStartsWith (levelPre1 p e b) k)).head? with
  | some k => rlookup m k
  | none =>
    match ((m.map Prod.fst).filter (fun k => jsStartsWith (levelPre2 p e) k)).head? with
    | some k => rlookup m k
    | none =>
      match ((m.map Prod.fst).filter (fun k => jsStartsWith (levelPre3 p) k)).head? with
      | some k => rlookup m k
      | none => (m.map Prod.snd).head?

/-- The amended claim C1, written after its words (not from the code): when
`outfitHistory` is empty or the current layer is undefined the display image
is `modelImageUrl`; if a NON-EMPTY entry exists under the composite key it is
returned; otherwise the prefix fallbacks and the first-value last resort
apply in order. -/
def displayImageUrlSpec (s : AppState) : Option String :=
  if s.outfitHistory.isEmpty then s.modelImageUrl else
  match s.outfitHistory[s.currentOutfitIndex]? with
  | none => s.modelImageUrl
  | some L =>
    let m := L.generatedImages
    match rlookup m (compositeKey s.currentPoseInstruction s.currentEmotionInstruction
        s.currentBackgroundInstruction s.currentColorInstruction) with
    | some v =>
      if v == "" then
        specFallback m s.currentPoseInstruction s.currentEmotionInstruction
          s.currentBackgroundInstruction
      else some v
    | none =>
      specFallback m s.currentPoseInstruction s.currentEmotionInstruction
        s.currentBackgroundInstruction

/-- `resetStateForNewGarment`. -/
def resetInstructions (s : AppState) : AppState :=
  { s with currentPoseInstruction := defaultPose,
           currentEmotionInstruction := defaultEmotion,
           currentBackgroundInstruction := defaultBackground,
           currentColorInstruction := defaultColor }

/-- `handleModelFinalized(url)`. -/
def handleModelFinalized (s : AppState) (url : String) : AppState :=
  resetInstructions
    { s with modelImageUrl := some url,
             outfitHistory := [{ garment := none, generatedImages := [(initialKey, url)] }],
             currentOutfitIndex := 0 }

/-- `handleStartOver`. -/
def handleStartOver (s : AppState) : AppState :=
  resetInstructions
    { s with modelImageUrl := none,
             outfitHistory := [],
             currentOutfitIndex := 0,
             isLoading := false,
             loadingMessage := "",
             error := none,
             isSheetCollapsed := false,
             wardrobe := defaultWardrobe }

/-- The redo test of `handleGarmentSelect`:
`nextLayer && nextLayer.garment?.id === garmentInfo.id`. -/
def redoMatches (s : AppState) (g : WardrobeItem) : Bool :=
  match s.outfitHistory[s.currentOutfitIndex + 1]? with
  | some nextLayer =>
    match nextLayer.garment with
    | some gi => gi.id == g.id
    | none => false
  | none => false

/-- `handleGarmentSelect(garmentFile, garmentInfo)`.  The generation outcome of
`generateVirtualTryOnImage` is the `result` argument; the returned
`Option String` is the base image the service was invoked with (`none` when it
was not invoked). -/
def handleGarmentSelect (s : AppState) (g : WardrobeItem) (result : Except String String) :
    AppState × Option String :=
  match displayImageUrl s with
  | none => (s, none)
  | some base =>
    if base == "" || s.isLoading then (s, none)
    else if redoMatches s g then
      (resetInstructions { s with currentOutfitIndex := s.currentOutfitIndex + 1 }, none)
    else
      match result with
      | Except.ok newImageUrl =>
        (resetInstructions
          { s with error := none, isLoading := false, loadingMessage := "",
                   outfitHistory := s.outfitHistory.take (s.currentOutfitIndex + 1) ++
                     [{ garment := some g, generatedImages := [(initialKey, newImageUrl)] }],
                   currentOutfitIndex := s.currentOutfitIndex + 1,
                   wardrobe := if s.wardrobe.any (fun it => it.id == g.id) then s.wardrobe
                               else s.wardrobe ++ [g] }, some base)
      | Except.error err =>
        (resetInstructions
          { s with error := some (getFriendlyErrorMessage err "Failed to apply garment"),
                   isLoading := false, loadingMessage := "" }, some base)

/-- `handleRemoveLastGarment`. -/
def handleRemoveLastGarment (s : AppState) : AppState :=
  if 0 < s.currentOutfitIndex then
    resetInstructions { s with currentOutfitIndex := s.currentOutfitIndex - 1 }
  else s

/-- `handlePoseSelect(newInstruction)`.  `none` models the uncaught TypeError
raised when `outfitHistory[currentOutfitIndex]` is undefined. -/
def handlePoseSelect (s : AppState) (newInstruction : String) (result : Except String String) :
    Option (AppState × Option String) :=
  if s.isLoading || s.outfitHistory.length == 0 ||
      newInstruction == s.currentPoseInstruction then some (s, none)
  else
    match s.outfitHistory[s.currentOutfitIndex]? with
    | none => none
    | some currentLayer =>
      let imageKey := compositeKey newInstruction s.currentEmotionInstruction
          s.currentBackgroundInstruction s.currentColorInstruction
      if truthyS (rlookup currentLayer.generatedImages imageKey) then
        some ({ s with currentPoseInstruction := newInstruction }, none)
      else
        match displayImageUrl s with
        | none => some (s, none)
        | some base =>
          if base == "" then some (s, none)
          else
            match result with
            | Except.ok newImageUrl =>
              some ({ s with
                        error := none, isLoading := false, loadingMessage := "",
                        currentPoseInstruction := newInstruction,
                        outfitHistory := updateLayer s.outfitHistory s.currentOutfitIndex
                          imageKey newImageUrl }, some base)
            | Except.error err =>
              some ({ s with
                      error := some (getFriendlyErrorMessage err "Failed to change pose"),
                      isLoading := false, loadingMessage := "" }, some base)

/-- `handleEmotionSelect(newInstruction)`. -/
def handleEmotionSelect (s : AppState) (newInstruction : String) (result : Except String String) :
    Option (AppState × Option String) :=
  if s.isLoading || s.outfitHistory.length == 0 ||
      newInstruction == s.currentEmotionInstruction then some (s, none)
  else
    match s.outfitHistory[s.currentOutfitIndex]? with
    | none => none
    | some currentLayer =>
      let imageKey := compositeKey s.currentPoseInstruction newInstruction
          s.currentBackgroundInstruction s.currentColorInstruction
      if truthyS (rlookup currentLayer.generatedImages imageKey) then
        some ({ s with currentEmotionInstruction := newInstruction }, none)
      else
        match displayImageUrl s with
        | none => some (s, none)
        | some base =>
          if base == "" then some (s, none)
          else
            match result with
            | Except.ok newImageUrl =>
              some ({ s with
                        error := none, isLoading := false, loadingMessage := "",
                        currentEmotionInstruction := newInstruction,
                        outfitHistory := updateLayer s.outfitHistory s.currentOutfitIndex
                          imageKey newImageUrl }, some base)
            | Except.error err =>
              some ({ s with
                      error := some (getFriendlyErrorMessage err "Failed to change emotion"),
                      isLoading := false, loadingMessage := "" }, some base)

/-- `handleBackgroundChange(newInstruction)`. -/
def handleBackgroundChange (s : AppState) (newInstruction : String)
    (result : Except String String) : Option (AppState × Option String) :=
  if s.isLoading || s.outfitHistory.length == 0 ||
      newInstruction == s.currentBackgroundInstruction then some (s, none)
  else
    match s.outfitHistory[s.currentOutfitIndex]? with
    | none => none
    | some currentLayer =>
      let imageKey := compositeKey s.currentPoseInstruction s.currentEmotionInstruction
          newInstruction s.currentColorInstruction
      if truthyS (rlookup currentLayer.generatedImages imageKey) then
        some ({ s with currentBackgroundInstruction := newInstruction }, none)
      else
        match displayImageUrl s with
        | none => some (s, none)
        | some base =>
          if base == "" then some (s, none)
          else
            match result with
            | Except.ok newImageUrl =>
              some ({ s with
                        error := none, isLoading := false, loadingMessage := "",
                        currentBackgroundInstruction := newInstruction,
                        outfitHistory := updateLayer s.outfitHistory s.currentOutfitIndex
                          imageKey newImageUrl }, some base)
            | Except.error err =>
              some ({ s with
                      error := some (getFriendlyErrorMessage err "Failed to change background"),
                      isLoading := false, loadingMessage := "" }, some base)

/-- `handleBackgroundUpload(file)`: the instruction is
`` `Uploaded: ${file.name}` `` and there is no same-instruction guard. -/
def handleBackgroundUpload (s : AppState) (fileName : String)
    (result : Except String String) : Option (AppState × Option String) :=
  if s.isLoading || s.outfitHistory.length == 0 then some (s, none)
  else
    let newInstruction := "Uploaded: " ++ fileName
    match s.outfitHistory[s.currentOutfitIndex]? with
    | none => none
    | some currentLayer =>
      let imageKey := compositeKey s.currentPoseInstruction s.currentEmotionInstruction
          newInstruction s.currentColorInstruction
      if truthyS (rlookup currentLayer.generatedImages imageKey) then
        some ({ s with currentBackgroundInstruction := newInstruction }, none)
      else
        match displayImageUrl s with
        | none => some (s, none)
        | some base =>
          if base == "" then some (s, none)
          else
            match result with
            | Except.ok newImageUrl =>
              some ({ s with
                        error := none, isLoading := false, loadingMessage := "",
                        currentBackgroundInstruction := newInstruction,
                        outfitHistory := updateLayer s.outfitHistory s.currentOutfitIndex
                          imageKey newImageUrl }, some base)
            | Except.error err =>
              some ({ s with
                      error := some (getFriendlyErrorMessage err
                        "Failed to apply custom background"),
                      isLoading := false, loadingMessage := "" }, some base)

/-- The error message of `handleColorChange` when the Original-color base
image is missing. -/
def missingOriginalMsg : String :=
  "The original image for this outfit is missing. Cannot change color."

/-- `handleColorChange(newInstruction)`: additionally a no-op on the base
layer, and the generation base is the current layer's Original-color entry. -/
def handleColorChange (s : AppState) (newInstruction : String)
    (result : Except String String) : Option (AppState × Option String) :=
  if s.isLoading || s.outfitHistory.length == 0 ||
      newInstruction == s.currentColorInstruction ||
      s.currentOutfitIndex == 0 then some (s, none)
  else
    match s.outfitHistory[s.currentOutfitIndex]? with
    | none => none
    | some currentLayer =>
      let imageKey := compositeKey s.currentPoseInstruction s.currentEmotionInstruction
          s.currentBackgroundInstruction newInstruction
      if truthyS (rlookup currentLayer.generatedImages imageKey) then
        some ({ s with currentColorInstruction := newInstruction }, none)
      else
        let originalColorKey := compositeKey s.currentPoseInstruction
            s.currentEmotionInstruction s.currentBackgroundInstruction defaultColor
        match rlookup currentLayer.generatedImages originalColorKey with
        | none => some ({ s with error := some missingOriginalMsg }, none)
        | some base =>
          if base == "" then some ({ s with error := some missingOriginalMsg }, none)
          else
            match result with
            | Except.ok newImageUrl =>
              some ({ s with
                        error := none, isLoading := false, loadingMessage := "",
                        currentColorInstruction := newInstruction,
                        outfitHistory := updateLayer s.outfitHistory s.currentOutfitIndex
                          imageKey newImageUrl }, some base)
            | Except.error err =>
              some ({ s with
                      error := some (getFriendlyErrorMessage err "Failed to change color"),
                      isLoading := false, loadingMessage := "" }, some base)

/-- The initial values of all `useState` cells. -/
def initState : AppState :=
  { modelImageUrl := none,
    outfitHistory := [],
    currentOutfitIndex := 0,
    isLoading := false,
    loadingMessage := "",
    error := none,
    currentPoseInstruction := defaultPose,
    currentEmotionInstruction := defaultEmotion,
    currentBackgroundInstruction := defaultBackground,
    currentColorInstruction := defaultColor,
    isSheetCollapsed := false,
    wardrobe := defaultWardrobe }

/-- The invariant of claim C4. -/
def Inv (s : AppState) : Prop :=
  (s.outfitHistory = [] → s.currentOutfitIndex = 0) ∧
  (s.outfitHistory ≠ [] → s.currentOutfitIndex < s.outfitHistory.length) ∧
  (∀ L ∈ s.outfitHistory, L.generatedImages ≠ []) ∧
  (∀ i, (hi : i < s.outfitHistory.length) →
    (i = 0 → (s.outfitHistory.get ⟨i, hi⟩).garment = none) ∧
    (0 < i → (s.outfitHistory.get ⟨i, hi⟩).garment ≠ none))

/-- The strengthened, inductive invariant: additionally, while the history is
empty the model image is falsy (`handleStartOver` clears both together and
`handleModelFinalized` sets both together). -/
def SInv (s : AppState) : Prop :=
  Inv s ∧ (s.outfitHistory = [] → truthyS s.modelImageUrl = false)

/-- States reachable from the initial state by the operations of claim C4,
each completing (successfully or with a caught error). -/
inductive Reachable : AppState → Prop where
  | init : Reachable initState
  | modelFinalized (s : AppState) (url : String) :
      Reachable s → Reachable (handleModelFinalized s url)
  | startOver (s : AppState) : Reachable s → Reachable (handleStartOver s)
  | garmentSelect (s : AppState) (g : WardrobeItem) (r : Except String String) :
      Reachable s → Reachable (handleGarmentSelect s g r).1
  | removeLast (s : AppState) : Reachable s → Reachable (handleRemoveLastGarment s)
  | poseSelect (s s' : AppState) (n : String) (r : Except String String)
      (b : Option String) : Reachable s → handlePoseSelect s n r = some (s', b) →
      Reachable s'
  | emotionSelect (s s' : AppState) (n : String) (r : Except String String)
      (b : Option String) : Reachable s → handleEmotionSelect s n r = some (s', b) →
      Reachable s'
  | backgroundChange (s s' : AppState) (n : String) (r : Except String String)
      (b : Option String) : Reachable s → handleBackgroundChange s n r = some (s', b) →
      Reachable s'
  | backgroundUpload (s s' : AppState) (fn : String) (r : Except String String)
      (b : Option String) : Reachable s → handleBackgroundUpload s fn r = some (s', b) →
      Reachable s'
  | colorChange (s s' : AppState) (n : String) (r : Except String String)
      (b : Option String) : Reachable s → handleColorChange s n r = some (s', b) →
      Reachable s'


/-- Counterexample state for claim C1: the current layer holds an entry under
the exact composite key `P_E_B_C` whose value is the empty string, and an
earlier level-1 key `P_E_B_X` with a different URL. -/
def cex1State : AppState :=
  { modelImageUrl := none,
    outfitHistory := [{ garment := none,
                        generatedImages := [(compositeKey "P" "E" "B" "X", "u1"),
                          (compositeKey "P" "E" "B" "C", "")] }],
    currentOutfitIndex := 0,
    isLoading := false,
    loadingMessage := "",
    error := none,
    currentPoseInstruction := "P",
    currentEmotionInstruction := "E",
    currentBackgroundInstruction := "B",
    currentColorInstruction := "C",
    isSheetCollapsed := false,
    wardrobe := [] }

/-- Counterexample state for claim C2: the current pose is the custom
instruction `a_b` (custom poses may contain underscores), while the only
cached key was built from the quadruple `("a", "b", "c", "d")`. -/
def cex2State : AppState :=
  { modelImageUrl := none,
    outfitHistory := [{ garment := none,
                        generatedImages := [(compositeKey "a" "b" "c" "d", "img1")] }],
    currentOutfitIndex := 0,
    isLoading := false,
    loadingMessage := "",
    error := none,
    currentPoseInstruction := "a_b",
    currentEmotionInstruction := "E",
    currentBackgroundInstruction := "B",
    currentColorInstruction := "C",
    isSheetCollapsed := false,
    wardrobe := [] }

/-- The success frame of (amended) claim C7 relative to pre-state `s`,
post-state `t`, composite key `K` and generated URL `u`: the index and the
history length are unchanged, all layers other than the current one are
unchanged, the current layer's garment is unchanged, its map now holds
`K ↦ u` (appended as a new entry whenever `K` was absent), and its entries
under every other key are preserved. -/
def successFrame (s t : AppState) (K u : String) : Prop :=
  t.currentOutfitIndex = s.currentOutfitIndex ∧
  t.outfitHistory.length = s.outfitHistory.length ∧
  (∀ j, j ≠ s.currentOutfitIndex → t.outfitHistory[j]? = s.outfitHistory[j]?) ∧
  (t.outfitHistory[s.currentOutfitIndex]?).map OutfitLayer.garment =
    (s.outfitHistory[s.currentOutfitIndex]?).map OutfitLayer.garment ∧
  (t.outfitHistory[s.currentOutfitIndex]?).map
      (fun L => rlookup L.generatedImages K) = some (some u) ∧
  (∀ k', k' ≠ K → (t.outfitHistory[s.currentOutfitIndex]?).map
      (fun L => rlookup L.generatedImages k') =
    (s.outfitHistory[s.currentOutfitIndex]?).map
      (fun L => rlookup L.generatedImages k')) ∧
  (∀ L L', s.outfitHistory[s.currentOutfitIndex]? = some L →
    t.outfitHistory[s.currentOutfitIndex]? = some L' →
    rlookup L.generatedImages K = none →
    L'.generatedImages = L.generatedImages ++ [(K, u)])

/-- An empty layer, used as a `headD` default in concrete statements. -/
def emptyLayer : OutfitLayer := { garment := none, generatedImages := [] }

/-- The state right after finalizing a model with URL `u0`; base state of
several witnesses. -/
def baseModelState : AppState := handleModelFinalized initState "u0"

/-- A sample garment. -/
def garmentA : WardrobeItem := { id := "g1", name := "Jacket", url := "gu" }

/-- A state with a base layer and one garment layer, current index 1. -/
def twoLayerState : AppState :=
  { modelImageUrl := some "u0",
    outfitHistory := [{ garment := none, generatedImages := [(initialKey, "u0")] },
                      { garment := some garmentA, generatedImages := [(initialKey, "u1")] }],
    currentOutfitIndex := 1,
    isLoading := false,
    loadingMessage := "",
    error := none,
    currentPoseInstruction := defaultPose,
    currentEmotionInstruction := defaultEmotion,
    currentBackgroundInstruction := defaultBackground,
    currentColorInstruction := defaultColor,
    isSheetCollapsed := false,
    wardrobe := [garmentA] }

/-- Counterexample state for claim C7: the current layer already holds an
entry for the target pose key with the empty-string value. -/
def cex7State : AppState :=
  { baseModelState with
    outfitHistory := [{ garment := none,
                        generatedImages := [(initialKey, "u0"),
                          (compositeKey "P2" defaultEmotion defaultBackground defaultColor,
                            "")] }] }

/-- Post-state of a failing pose variation on `baseModelState`. -/
def c6tPose : AppState :=
  { baseModelState with error := some (getFriendlyErrorMessage "boom" "Failed to change pose") }

/-- Post-state of a failing emotion variation on `baseModelState`. -/
def c6tEmotion : AppState :=
  { baseModelState with error := some (getFriendlyErrorMessage "boom" "Failed to change emotion") }

/-- Post-state of a failing background variation on `baseModelState`. -/
def c6tBackground : AppState :=
  { baseModelState with
    error := some (getFriendlyErrorMessage "boom" "Failed to change background") }

/-- Post-state of a failing background upload on `baseModelState`. -/
def c6tUpload : AppState :=
  { baseModelState with
    error := some (getFriendlyErrorMessage "boom" "Failed to apply custom background") }

/-- Post-state of a failing color variation on `twoLayerState`. -/
def c6tColor : AppState :=
  { twoLayerState with error := some (getFriendlyErrorMessage "boom" "Failed to change color") }

/-- Post-state of a successful pose variation on `baseModelState`. -/
def c7tPose : AppState :=
  { baseModelState with
    currentPoseInstruction := "Side profile view",
    outfitHistory := [{ garment := none,
                        generatedImages := [(initialKey, "u0"),
                          (compositeKey "Side profile view" defaultEmotion defaultBackground
                            defaultColor, "w")] }] }

/-- Post-state of a successful emotion variation on `baseModelState`. -/
def c7tEmotion : AppState :=
  { baseModelState with
    currentEmotionInstruction := "Happy",
    outfitHistory := [{ garment := none,
                        generatedImages := [(initialKey, "u0"),
                          (compositeKey defaultPose "Happy" defaultBackground
                            defaultColor, "w")] }] }

/-- Post-state of a successful background variation on `baseModelState`. -/
def c7tBackground : AppState :=
  { baseModelState with
    currentBackgroundInstruction := "City street at night",
    outfitHistory := [{ garment := none,
                        generatedImages := [(initialKey, "u0"),
                          (compositeKey defaultPose defaultEmotion "City street at night"
                            defaultColor, "w")] }] }

/-- Post-state of a successful background upload on `baseModelState`. -/
def c7tUpload : AppState :=
  { baseModelState with
    currentBackgroundInstruction := "Uploaded: bg.png",
    outfitHistory := [{ garment := none,
                        generatedImages := [(initialKey, "u0"),
                          (compositeKey defaultPose defaultEmotion "Uploaded: bg.png"
                            defaultColor, "w")] }] }

/-- Post-state of a successful color variation on `twoLayerState`. -/
def c7tColor : AppState :=
  { twoLayerState with
    currentColorInstruction := "Vibrant Red",
    outfitHistory := [{ garment := none, generatedImages := [(initialKey, "u0")] },
                      { garment := some garmentA,
                        generatedImages := [(initialKey, "u1"),
                          (compositeKey defaultPose defaultEmotion defaultBackground
                            "Vibrant Red", "w")] }] }

/-- Counterexample state for claim C5: the target pose combination is already
cached in the current layer. -/
def cex5State : AppState :=
  { baseModelState with
    outfitHistory := [{ garment := none,
                        generatedImages := [(initialKey, "u0"),
                          (compositeKey "Side profile view" defaultEmotion defaultBackground
                            defaultColor, "u1")] }] }

/-- Counterexample state for claim C8: two layers, index 1, but `isLoading`
is true (`handleRemoveLastGarment` has no loading guard, `handleGarmentSelect`
does). -/
def cex8State : AppState := { twoLayerState with isLoading := true }

/-- Counterexample state for claim C10: the garment layer's Original-color
entry is present but holds the empty string. -/
def cex10State : AppState :=
  { twoLayerState with
    outfitHistory := [{ garment := none, generatedImages := [(initialKey, "u0")] },
                      { garment := some garmentA, generatedImages := [(initialKey, "")] }] }

/-- Witness state for claim C10's absent-entry branch: the garment layer has
no Original-color entry at all. -/
def c10AbsState : AppState :=
  { twoLayerState with
    outfitHistory := [{ garment := none, generatedImages := [(initialKey, "u0")] },
                      { garment := some garmentA,
                        generatedImages := [(compositeKey defaultPose defaultEmotion
                          defaultBackground "Deep Blue", "x")] }] }

/-! ## Theorems -/

theorem find?_eq_filterHead (p : α → Bool) (l : List α) :
    l.find? p = (l.filter p).head? :=
  (List.filter_head? p l).symm

theorem c1_helper_fallback (m : List (String × String)) (p e b : String) :
    (match (m.map Prod.fst).find? (fun k => jsStartsWith (levelPre1 p e b) k) with
      | some k => rlookup m k
      | none =>
        match (m.map Prod.fst).find? (fun k => jsStartsWith (levelPre2 p e) k) with
        | some k => rlookup m k
        | none =>
          match (m.map Prod.fst).find? (fun k => jsStartsWith (levelPre3 p) k) with
          | some k => rlookup m k
          | none => (m.map Prod.snd).head?) = specFallback m p e b := by
  unfold specFallback
  rw [find?_eq_filterHead, find?_eq_filterHead, find?_eq_filterHead]

/-- C1 (amended): `displayImageUrl` coincides everywhere with the
specification-side resolution `displayImageUrlSpec`: `modelImageUrl` when the
history is empty or the current layer undefined; the composite-key entry when
it exists non-empty; otherwise the three prefix fallbacks in key-enumeration
order and finally the first value of the map. -/
theorem c1_theorem (s : AppState) : displayImageUrl s = displayImageUrlSpec s := by
  unfold displayImageUrl displayImageUrlSpec
  cases hh : s.outfitHistory with
  | nil => rfl
  | cons a t =>
    simp only [List.length_cons, List.isEmpty_cons, Nat.succ_ne_zero]
    have hlen : ((t.length + 1) == 0) = false := by simp
    rw [hlen]
    simp only [Bool.false_eq_true, if_false]
    cases hx : (a :: t)[s.currentOutfitIndex]? with
    | none => rfl
    | some L =>
      simp only []
      cases hr : rlookup L.generatedImages
          (compositeKey s.currentPoseInstruction s.currentEmotionInstruction
            s.currentBackgroundInstruction s.currentColorInstruction) with
      | none =>
        simp only [hr, truthyS, Bool.false_eq_true, if_false]
        exact c1_helper_fallback L.generatedImages s.currentPoseInstruction
          s.currentEmotionInstruction s.currentBackgroundInstruction
      | some v =>
        by_cases hv : v = ""
        · subst hv
          simp only [hr, truthyS]
          simp only [beq_self_eq_true, Bool.not_true, Bool.false_eq_true, if_false]
          exact c1_helper_fallback L.generatedImages s.currentPoseInstruction
            s.currentEmotionInstruction s.currentBackgroundInstruction
        · have hb : (v == "") = false := by simp [hv]
          simp only [hr, truthyS, hb, Bool.not_false, if_true]
          simp

/-- C1 counterexample: in `cex1State` the history is non-empty, the current
layer is defined and holds an entry under the exact composite key of the four
current instructions (with value `""`), yet `displayImageUrl` returns the
value of a different (level-1 fallback) entry, `"u1"`. -/
theorem c1_counterexample :
    cex1State.outfitHistory ≠ [] ∧
    (cex1State.outfitHistory[cex1State.currentOutfitIndex]?).isSome = true ∧
    rlookup ((cex1State.outfitHistory.headD
        { garment := none, generatedImages := [] }).generatedImages)
      (compositeKey cex1State.currentPoseInstruction cex1State.currentEmotionInstruction
        cex1State.currentBackgroundInstruction cex1State.currentColorInstruction) =
      some "" ∧
    displayImageUrl cex1State = some "u1" ∧
    some ("u1" : String) ≠ some "" := by
  exact ⟨by decide, by decide, by decide, by decide, by decide⟩

theorem jsStartsWith_self_append (pre c : String) :
    jsStartsWith pre (pre ++ c) = true := by
  unfold jsStartsWith
  rw [String.data_append]
  exact List.isPrefixOf_iff_prefix.mpr (List.prefix_append pre.data c.data)

theorem levelPre1_compositeKey (p e b c : String) :
    compositeKey p e b c = levelPre1 p e b ++ c := by
  unfold compositeKey levelPre1
  simp [String.append_assoc]

/-- C9: after `handleModelFinalized(url)` the history is the single base
layer whose map holds exactly the default-composite-key entry for `url`, the
index is 0, the four instructions are the defaults, and the displayed image
is `url`. -/
theorem c9_theorem (s : AppState) (url : String) :
    (handleModelFinalized s url).outfitHistory =
      [{ garment := none, generatedImages := [(initialKey, url)] }] ∧
    (handleModelFinalized s url).currentOutfitIndex = 0 ∧
    (handleModelFinalized s url).currentPoseInstruction = defaultPose ∧
    (handleModelFinalized s url).currentEmotionInstruction = defaultEmotion ∧
    (handleModelFinalized s url).currentBackgroundInstruction = defaultBackground ∧
    (handleModelFinalized s url).currentColorInstruction = defaultColor ∧
    displayImageUrl (handleModelFinalized s url) = some url := by
  refine ⟨rfl, rfl, rfl, rfl, rfl, rfl, ?_⟩
  unfold displayImageUrl handleModelFinalized resetInstructions
  by_cases hu : url = ""
  · subst hu
    rfl
  · simp [rlookup, truthyS, hu, initialKey]


theorem underscoreFree_spec (x : String) (h : underscoreFree x = true) :
    ∀ ch ∈ x.data, ch ≠ '_' := by
  intro ch hm
  unfold underscoreFree at h
  rw [List.all_eq_true] at h
  simpa using h ch hm

theorem sep_inj : ∀ (a a' t t' : List Char),
    (∀ ch ∈ a, ch ≠ '_') → (∀ ch ∈ a', ch ≠ '_') →
    a ++ '_' :: t = a' ++ '_' :: t' → a = a' ∧ t = t'
  | [], [], t, t', _, _, h => by simpa using h
  | [], x :: xs, t, t', _, ha', h => by
      simp at h
      exact absurd h.1.symm (ha' x (by simp))
  | x :: xs, [], t, t', ha, _, h => by
      simp at h
      exact absurd h.1 (ha x (by simp))
  | x :: xs, ys' :: ys, t, t', ha, ha', h => by
      simp at h
      obtain ⟨hxy, hrest⟩ := h
      obtain ⟨h1, h2⟩ := sep_inj xs ys t t' (fun ch hm => ha ch (by simp [hm]))
        (fun ch hm => ha' ch (by simp [hm])) hrest
      exact ⟨by rw [hxy, h1], h2⟩

theorem compositeKey_data (p e b c : String) :
    (compositeKey p e b c).data =
      p.data ++ '_' :: (e.data ++ '_' :: (b.data ++ '_' :: c.data)) := by
  have hu : ("_" : String).data = ['_'] := rfl
  unfold compositeKey
  simp [String.data_append, hu]

theorem levelPre1_data (p e b : String) :
    (levelPre1 p e b).data = p.data ++ '_' :: (e.data ++ '_' :: (b.data ++ ['_'])) := by
  have hu : ("_" : String).data = ['_'] := rfl
  unfold levelPre1
  simp [String.data_append, hu]

theorem levelPre2_data (p e : String) :
    (levelPre2 p e).data = p.data ++ '_' :: (e.data ++ ['_']) := by
  have hu : ("_" : String).data = ['_'] := rfl
  unfold levelPre2
  simp [String.data_append, hu]

theorem levelPre3_data (p : String) : (levelPre3 p).data = p.data ++ ['_'] := by
  have hu : ("_" : String).data = ['_'] := rfl
  unfold levelPre3
  simp [String.data_append, hu]

theorem string_eq_of_data {s t : String} (h : s.data = t.data) : s = t := by
  cases s
  cases t
  exact congrArg String.mk (by simpa using h)

/-- C2 (amended): provided the current instructions and the instructions the
key was built from contain no underscore, a prefix match at a fallback level
does agree with the current instructions on the axes of that level.  (With
arbitrary custom instructions — which may contain underscores — this fails;
see the counterexample.) -/
theorem c2_theorem (p e b p' e' b' c' : String)
    (hp : underscoreFree p = true) (he : underscoreFree e = true)
    (hb : underscoreFree b = true) (hp' : underscoreFree p' = true)
    (he' : underscoreFree e' = true) (hb' : underscoreFree b' = true) :
    (jsStartsWith (levelPre1 p e b) (compositeKey p' e' b' c') = true →
      p' = p ∧ e' = e ∧ b' = b) ∧
    (jsStartsWith (levelPre2 p e) (compositeKey p' e' b' c') = true →
      p' = p ∧ e' = e) ∧
    (jsStartsWith (levelPre3 p) (compositeKey p' e' b' c') = true → p' = p) := by
  have hp0 := underscoreFree_spec p hp
  have he0 := underscoreFree_spec e he
  have hb0 := underscoreFree_spec b hb
  have hp0' := underscoreFree_spec p' hp'
  have he0' := underscoreFree_spec e' he'
  have hb0' := underscoreFree_spec b' hb'
  refine ⟨?_, ?_, ?_⟩
  · intro h
    unfold jsStartsWith at h
    obtain ⟨r, hr⟩ := List.isPrefixOf_iff_prefix.mp h
    rw [levelPre1_data, compositeKey_data] at hr
    simp only [List.append_assoc, List.cons_append, List.singleton_append] at hr
    obtain ⟨hpp, htail⟩ := sep_inj p.data p'.data _ _ hp0 hp0' hr
    obtain ⟨hee, htail2⟩ := sep_inj e.data e'.data _ _ he0 he0' htail
    obtain ⟨hbb, _⟩ := sep_inj b.data b'.data _ _ hb0 hb0' htail2
    exact ⟨(string_eq_of_data hpp).symm, (string_eq_of_data hee).symm,
      (string_eq_of_data hbb).symm⟩
  · intro h
    unfold jsStartsWith at h
    obtain ⟨r, hr⟩ := List.isPrefixOf_iff_prefix.mp h
    rw [levelPre2_data, compositeKey_data] at hr
    simp only [List.append_assoc, List.cons_append, List.singleton_append] at hr
    obtain ⟨hpp, htail⟩ := sep_inj p.data p'.data _ _ hp0 hp0' hr
    obtain ⟨hee, _⟩ := sep_inj e.data e'.data _ _ he0 he0' htail
    exact ⟨(string_eq_of_data hpp).symm, (string_eq_of_data hee).symm⟩
  · intro h
    unfold jsStartsWith at h
    obtain ⟨r, hr⟩ := List.isPrefixOf_iff_prefix.mp h
    rw [levelPre3_data, compositeKey_data] at hr
    simp only [List.append_assoc, List.cons_append, List.singleton_append] at hr
    obtain ⟨hpp, _⟩ := sep_inj p.data p'.data _ _ hp0 hp0' hr
    exact (string_eq_of_data hpp).symm

/-- C2 counterexample: with the custom current pose `a_b`, the fallback
search selects (at level 3, via the prefix `a_b_`) the image cached under
the key built from pose `a` — whose pose component, as the code itself
extracts it (`key.split('_')[0]` in `availablePoseKeys`), is `a`, not the
current pose `a_b`. -/
theorem c2_counterexample :
    jsStartsWith (levelPre3 cex2State.currentPoseInstruction)
      (compositeKey "a" "b" "c" "d") = true ∧
    displayImageUrl cex2State = some "img1" ∧
    keyPose (compositeKey "a" "b" "c" "d") = "a" ∧
    ("a" : String) ≠ "a_b" :=
  ⟨by decide, by decide, by decide, by decide⟩

theorem c2_witness :
    (underscoreFree "A" = true ∧ underscoreFree "B" = true ∧ underscoreFree "C" = true ∧
      underscoreFree "D" = true ∧
      jsStartsWith (levelPre1 "A" "B" "C") (compositeKey "A" "B" "C" "D") = true) ∧
    (("A" : String) = "A" ∧ ("B" : String) = "B" ∧ ("C" : String) = "C") :=
  ⟨⟨by decide, by decide, by decide, by decide, by decide⟩,
    ( c2_theorem "A" "B" "C" "A" "B" "C" "D" (by decide) (by decide) (by decide) (by decide)
      (by decide) (by decide)).1 (by decide)⟩


theorem recordSet_ne_nil (m : List (String × String)) (k v : String) :
    recordSet m k v ≠ [] := by
  cases m with
  | nil => simp [recordSet]
  | cons a rest =>
    obtain ⟨k', v'⟩ := a
    unfold recordSet
    split <;> simp

theorem rlookup_recordSet_self (m : List (String × String)) (k v : String) :
    rlookup (recordSet m k v) k = some v := by
  induction m with
  | nil => simp [recordSet, rlookup]
  | cons a rest ih =>
    obtain ⟨k', v'⟩ := a
    unfold recordSet
    by_cases hk : (k' == k) = true
    · simp [hk, rlookup]
    · simp only [hk, Bool.false_eq_true, if_false]
      unfold rlookup
      simp only [hk, Bool.false_eq_true, if_false]
      exact ih

theorem rlookup_recordSet_other (m : List (String × String)) (k v k' : String)
    (h : k' ≠ k) : rlookup (recordSet m k v) k' = rlookup m k' := by
  have hne : (k == k') = false := by
    simp only [beq_eq_false_iff_ne, ne_eq]
    exact fun hc => h hc.symm
  induction m with
  | nil => simp [recordSet, rlookup, hne]
  | cons a rest ih =>
    obtain ⟨k0, v0⟩ := a
    unfold recordSet
    by_cases hk : (k0 == k) = true
    · have hk0 : k0 = k := by simpa using hk
      subst hk0
      simp [rlookup, hne]
    · simp only [hk, Bool.false_eq_true, if_false]
      unfold rlookup
      split <;> simp_all

theorem recordSet_append_of_absent (m : List (String × String)) (k v : String)
    (h : rlookup m k = none) : recordSet m k v = m ++ [(k, v)] := by
  induction m with
  | nil => simp [recordSet]
  | cons a rest ih =>
    obtain ⟨k0, v0⟩ := a
    unfold rlookup at h
    unfold recordSet
    by_cases hk : (k0 == k) = true
    · simp [hk] at h
    · simp only [hk, Bool.false_eq_true, if_false] at h ⊢
      rw [ih h]
      simp

theorem updateLayer_length (h : List OutfitLayer) (i : Nat) (k v : String) :
    (updateLayer h i k v).length = h.length := by
  induction h generalizing i with
  | nil => simp [updateLayer]
  | cons L rest ih =>
    cases i with
    | zero => simp [updateLayer]
    | succ j => simp [updateLayer, ih]

theorem updateLayer_getElem?_ne (h : List OutfitLayer) (i j : Nat) (k v : String)
    (hne : j ≠ i) : (updateLayer h i k v)[j]? = h[j]? := by
  induction h generalizing i j with
  | nil => simp [updateLayer]
  | cons L rest ih =>
    cases i with
    | zero =>
      cases j with
      | zero => exact absurd rfl hne
      | succ j' => simp [updateLayer]
    | succ i' =>
      cases j with
      | zero => simp [updateLayer]
      | succ j' =>
        simp only [updateLayer, List.getElem?_cons_succ]
        exact ih i' j' (fun hc => hne (by rw [hc]))

theorem updateLayer_getElem?_eq (h : List OutfitLayer) (i : Nat) (k v : String) :
    (updateLayer h i k v)[i]? = (h[i]?).map
      (fun L => { L with generatedImages := recordSet L.generatedImages k v }) := by
  induction h generalizing i with
  | nil => simp [updateLayer]
  | cons L rest ih =>
    cases i with
    | zero => simp [updateLayer]
    | succ i' =>
      simp only [updateLayer, List.getElem?_cons_succ]
      exact ih i'

theorem updateLayer_images_ne_nil (h : List OutfitLayer) (i : Nat) (k v : String)
    (hh : ∀ L ∈ h, L.generatedImages ≠ []) :
    ∀ L ∈ updateLayer h i k v, L.generatedImages ≠ [] := by
  induction h generalizing i with
  | nil => simp [updateLayer]
  | cons L rest ih =>
    cases i with
    | zero =>
      intro L' hm
      simp only [updateLayer, List.mem_cons] at hm
      rcases hm with hm | hm
      · rw [hm]
        exact recordSet_ne_nil L.generatedImages k v
      · exact hh L' (List.mem_cons_of_mem L hm)
    | succ i' =>
      intro L' hm
      simp only [updateLayer, List.mem_cons] at hm
      rcases hm with hm | hm
      · rw [hm]
        exact hh L (List.mem_cons_self L rest)
      · exact ih i' (fun x hx => hh x (List.mem_cons_of_mem L hx)) L' hm


theorem poseSelect_api (s : AppState) (n : String) (r : Except String String)
    (t : AppState) (b : String)
    (h : handlePoseSelect s n r = some (t, some b)) :
    displayImageUrl s = some b ∧ (b == "") = false ∧
    s.currentOutfitIndex < s.outfitHistory.length ∧
    ((∃ u, r = Except.ok u ∧ t =
        { s with error := none, isLoading := false, loadingMessage := "",
                 currentPoseInstruction := n,
                 outfitHistory := updateLayer s.outfitHistory s.currentOutfitIndex
                   (compositeKey n s.currentEmotionInstruction
                     s.currentBackgroundInstruction s.currentColorInstruction) u }) ∨
     (∃ e, r = Except.error e ∧ t =
        { s with error := some (getFriendlyErrorMessage e "Failed to change pose"),
                 isLoading := false, loadingMessage := "" })) := by
  by_cases hg : (s.isLoading || s.outfitHistory.length == 0 ||
      n == s.currentPoseInstruction) = true
  · simp [handlePoseSelect, hg] at h
  · have hg' : (s.isLoading || s.outfitHistory.length == 0 ||
        n == s.currentPoseInstruction) = false := by simpa using hg
    cases hcl : s.outfitHistory[s.currentOutfitIndex]? with
    | none => simp [handlePoseSelect, hg', hcl] at h
    | some cl =>
      have hblt : s.currentOutfitIndex < s.outfitHistory.length :=
        (List.getElem?_eq_some.mp hcl).1
      cases hk : truthyS (rlookup cl.generatedImages
          (compositeKey n s.currentEmotionInstruction s.currentBackgroundInstruction
            s.currentColorInstruction)) with
      | true => simp [handlePoseSelect, hg', hcl, hk] at h
      | false =>
        cases hdisp : displayImageUrl s with
        | none => simp [handlePoseSelect, hg', hcl, hk, hdisp] at h
        | some base =>
          by_cases hb0 : (base == "") = true
          · simp [handlePoseSelect, hg', hcl, hk, hdisp, hb0] at h
          · have hb0' : (base == "") = false := by simpa using hb0
            cases r with
            | ok u =>
              simp only [handlePoseSelect, hg', hcl, hk, hdisp, hb0', Bool.false_eq_true,
                if_false, Option.some.injEq, Prod.mk.injEq] at h
              obtain ⟨ht, hbb⟩ := h
              rw [← hbb]
              exact ⟨rfl, hb0', hblt, Or.inl ⟨u, rfl, ht.symm⟩⟩
            | error e =>
              simp only [handlePoseSelect, hg', hcl, hk, hdisp, hb0', Bool.false_eq_true,
                if_false, Option.some.injEq, Prod.mk.injEq] at h
              obtain ⟨ht, hbb⟩ := h
              rw [← hbb]
              exact ⟨rfl, hb0', hblt, Or.inr ⟨e, rfl, ht.symm⟩⟩

theorem emotionSelect_api (s : AppState) (n : String) (r : Except String String)
    (t : AppState) (b : String)
    (h : handleEmotionSelect s n r = some (t, some b)) :
    displayImageUrl s = some b ∧ (b == "") = false ∧
    s.currentOutfitIndex < s.outfitHistory.length ∧
    ((∃ u, r = Except.ok u ∧ t =
        { s with error := none, isLoading := false, loadingMessage := "",
                 currentEmotionInstruction := n,
                 outfitHistory := updateLayer s.outfitHistory s.currentOutfitIndex
                   (compositeKey s.currentPoseInstruction n s.currentBackgroundInstruction
                     s.currentColorInstruction) u }) ∨
     (∃ e, r = Except.error e ∧ t =
        { s with error := some (getFriendlyErrorMessage e "Failed to change emotion"),
                 isLoading := false, loadingMessage := "" })) := by
  by_cases hg : (s.isLoading || s.outfitHistory.length == 0 ||
      n == s.currentEmotionInstruction) = true
  · simp [handleEmotionSelect, hg] at h
  · have hg' : (s.isLoading || s.outfitHistory.length == 0 ||
      n == s.currentEmotionInstruction) = false := by simpa using hg
    cases hcl : s.outfitHistory[s.currentOutfitIndex]? with
    | none => simp [handleEmotionSelect, hg', hcl] at h
    | some cl =>
      have hblt : s.currentOutfitIndex < s.outfitHistory.length :=
        (List.getElem?_eq_some.mp hcl).1
      cases hk : truthyS (rlookup cl.generatedImages
          (compositeKey s.currentPoseInstruction n s.currentBackgroundInstruction
                     s.currentColorInstruction)) with
      | true => simp [handleEmotionSelect, hg', hcl, hk] at h
      | false =>
        cases hdisp : displayImageUrl s with
        | none => simp [handleEmotionSelect, hg', hcl, hk, hdisp] at h
        | some base =>
          by_cases hb0 : (base == "") = true
          · simp [handleEmotionSelect, hg', hcl, hk, hdisp, hb0] at h
          · have hb0' : (base == "") = false := by simpa using hb0
            cases r with
            | ok u =>
              simp only [handleEmotionSelect, hg', hcl, hk, hdisp, hb0', Bool.false_eq_true,
                if_false, Option.some.injEq, Prod.mk.injEq] at h
              obtain ⟨ht, hbb⟩ := h
              rw [← hbb]
              exact ⟨rfl, hb0', hblt, Or.inl ⟨u, rfl, ht.symm⟩⟩
            | error e =>
              simp only [handleEmotionSelect, hg', hcl, hk, hdisp, hb0', Bool.false_eq_true,
                if_false, Option.some.injEq, Prod.mk.injEq] at h
              obtain ⟨ht, hbb⟩ := h
              rw [← hbb]
              exact ⟨rfl, hb0', hblt, Or.inr ⟨e, rfl, ht.symm⟩⟩

theorem backgroundChange_api (s : AppState) (n : String) (r : Except String String)
    (t : AppState) (b : String)
    (h : handleBackgroundChange s n r = some (t, some b)) :
    displayImageUrl s = some b ∧ (b == "") = false ∧
    s.currentOutfitIndex < s.outfitHistory.length ∧
    ((∃ u, r = Except.ok u ∧ t =
        { s with error := none, isLoading := false, loadingMessage := "",
                 currentBackgroundInstruction := n,
                 outfitHistory := updateLayer s.outfitHistory s.currentOutfitIndex
                   (compositeKey s.currentPoseInstruction s.currentEmotionInstruction n
                     s.currentColorInstruction) u }) ∨
     (∃ e, r = Except.error e ∧ t =
        { s with error := some (getFriendlyErrorMessage e "Failed to change background"),
                 isLoading := false, loadingMessage := "" })) := by
  by_cases hg : (s.isLoading || s.outfitHistory.length == 0 ||
      n == s.currentBackgroundInstruction) = true
  · simp [handleBackgroundChange, hg] at h
  · have hg' : (s.isLoading || s.outfitHistory.length == 0 ||
      n == s.currentBackgroundInstruction) = false := by simpa using hg
    cases hcl : s.outfitHistory[s.currentOutfitIndex]? with
    | none => simp [handleBackgroundChange, hg', hcl] at h
    | some cl =>
      have hblt : s.currentOutfitIndex < s.outfitHistory.length :=
        (List.getElem?_eq_some.mp hcl).1
      cases hk : truthyS (rlookup cl.generatedImages
          (compositeKey s.currentPoseInstruction s.currentEmotionInstruction n
                     s.currentColorInstruction)) with
      | true => simp [handleBackgroundChange, hg', hcl, hk] at h
      | false =>
        cases hdisp : displayImageUrl s with
        | none => simp [handleBackgroundChange, hg', hcl, hk, hdisp] at h
        | some base =>
          by_cases hb0 : (base == "") = true
          · simp [handleBackgroundChange, hg', hcl, hk, hdisp, hb0] at h
          · have hb0' : (base == "") = false := by simpa using hb0
            cases r with
            | ok u =>
              simp only [handleBackgroundChange, hg', hcl, hk, hdisp, hb0', Bool.false_eq_true,
                if_false, Option.some.injEq, Prod.mk.injEq] at h
              obtain ⟨ht, hbb⟩ := h
              rw [← hbb]
              exact ⟨rfl, hb0', hblt, Or.inl ⟨u, rfl, ht.symm⟩⟩
            | error e =>
              simp only [handleBackgroundChange, hg', hcl, hk, hdisp, hb0', Bool.false_eq_true,
                if_false, Option.some.injEq, Prod.mk.injEq] at h
              obtain ⟨ht, hbb⟩ := h
              rw [← hbb]
              exact ⟨rfl, hb0', hblt, Or.inr ⟨e, rfl, ht.symm⟩⟩

theorem backgroundUpload_api (s : AppState) (n : String) (r : Except String String)
    (t : AppState) (b : String)
    (h : handleBackgroundUpload s n r = some (t, some b)) :
    displayImageUrl s = some b ∧ (b == "") = false ∧
    s.currentOutfitIndex < s.outfitHistory.length ∧
    ((∃ u, r = Except.ok u ∧ t =
        { s with error := none, isLoading := false, loadingMessage := "",
                 currentBackgroundInstruction := ("Uploaded: " ++ n),
                 outfitHistory := updateLayer s.outfitHistory s.currentOutfitIndex
                   (compositeKey s.currentPoseInstruction s.currentEmotionInstruction
                     ("Uploaded: " ++ n) s.currentColorInstruction) u }) ∨
     (∃ e, r = Except.error e ∧ t =
        { s with error := some (getFriendlyErrorMessage e "Failed to apply custom background"),
                 isLoading := false, loadingMessage := "" })) := by
  by_cases hg : (s.isLoading || s.outfitHistory.length == 0) = true
  · simp [handleBackgroundUpload, hg] at h
  · have hg' : (s.isLoading || s.outfitHistory.length == 0) = false := by simpa using hg
    cases hcl : s.outfitHistory[s.currentOutfitIndex]? with
    | none => simp [handleBackgroundUpload, hg', hcl] at h
    | some cl =>
      have hblt : s.currentOutfitIndex < s.outfitHistory.length :=
        (List.getElem?_eq_some.mp hcl).1
      cases hk : truthyS (rlookup cl.generatedImages
          (compositeKey s.currentPoseInstruction s.currentEmotionInstruction
                     ("Uploaded: " ++ n) s.currentColorInstruction)) with
      | true => simp [handleBackgroundUpload, hg', hcl, hk] at h
      | false =>
        cases hdisp : displayImageUrl s with
        | none => simp [handleBackgroundUpload, hg', hcl, hk, hdisp] at h
        | some base =>
          by_cases hb0 : (base == "") = true
          · simp [handleBackgroundUpload, hg', hcl, hk, hdisp, hb0] at h
          · have hb0' : (base == "") = false := by simpa using hb0
            cases r with
            | ok u =>
              simp only [handleBackgroundUpload, hg', hcl, hk, hdisp, hb0', Bool.false_eq_true,
                if_false, Option.some.injEq, Prod.mk.injEq] at h
              obtain ⟨ht, hbb⟩ := h
              rw [← hbb]
              exact ⟨rfl, hb0', hblt, Or.inl ⟨u, rfl, ht.symm⟩⟩
            | error e =>
              simp only [handleBackgroundUpload, hg', hcl, hk, hdisp, hb0', Bool.false_eq_true,
                if_false, Option.some.injEq, Prod.mk.injEq] at h
              obtain ⟨ht, hbb⟩ := h
              rw [← hbb]
              exact ⟨rfl, hb0', hblt, Or.inr ⟨e, rfl, ht.symm⟩⟩

theorem colorChange_api (s : AppState) (n : String) (r : Except String String)
    (t : AppState) (b : String)
    (h : handleColorChange s n r = some (t, some b)) :
    (s.outfitHistory[s.currentOutfitIndex]?).map
      (fun L => rlookup L.generatedImages (compositeKey s.currentPoseInstruction
        s.currentEmotionInstruction s.currentBackgroundInstruction defaultColor)) =
      some (some b) ∧
    (b == "") = false ∧
    s.currentOutfitIndex < s.outfitHistory.length ∧
    ((∃ u, r = Except.ok u ∧ t =
        { s with error := none, isLoading := false, loadingMessage := "",
                 currentColorInstruction := n,
                 outfitHistory := updateLayer s.outfitHistory s.currentOutfitIndex
                   (compositeKey s.currentPoseInstruction s.currentEmotionInstruction
                     s.currentBackgroundInstruction n) u }) ∨
     (∃ e, r = Except.error e ∧ t =
        { s with error := some (getFriendlyErrorMessage e "Failed to change color"),
                 isLoading := false, loadingMessage := "" })) := by
  by_cases hg : (s.isLoading || s.outfitHistory.length == 0 ||
      n == s.currentColorInstruction || s.currentOutfitIndex == 0) = true
  · simp [handleColorChange, hg] at h
  · have hg' : (s.isLoading || s.outfitHistory.length == 0 ||
        n == s.currentColorInstruction || s.currentOutfitIndex == 0) = false := by simpa using hg
    cases hcl : s.outfitHistory[s.currentOutfitIndex]? with
    | none => simp [handleColorChange, hg', hcl] at h
    | some cl =>
      have hblt : s.currentOutfitIndex < s.outfitHistory.length :=
        (List.getElem?_eq_some.mp hcl).1
      cases hk : truthyS (rlookup cl.generatedImages
          (compositeKey s.currentPoseInstruction s.currentEmotionInstruction
            s.currentBackgroundInstruction n)) with
      | true => simp [handleColorChange, hg', hcl, hk] at h
      | false =>
        cases horig : rlookup cl.generatedImages
            (compositeKey s.currentPoseInstruction s.currentEmotionInstruction
              s.currentBackgroundInstruction defaultColor) with
        | none => simp [handleColorChange, hg', hcl, hk, horig] at h
        | some base =>
          by_cases hb0 : (base == "") = true
          · simp [handleColorChange, hg', hcl, hk, horig, hb0] at h
          · have hb0' : (base == "") = false := by simpa using hb0
            cases r with
            | ok u =>
              simp only [handleColorChange, hg', hcl, hk, horig, hb0', Bool.false_eq_true,
                if_false, Option.some.injEq, Prod.mk.injEq] at h
              obtain ⟨ht, hbb⟩ := h
              rw [← hbb]
              exact ⟨by simp [horig], hb0', hblt,
                Or.inl ⟨u, rfl, ht.symm⟩⟩
            | error e =>
              simp only [handleColorChange, hg', hcl, hk, horig, hb0', Bool.false_eq_true,
                if_false, Option.some.injEq, Prod.mk.injEq] at h
              obtain ⟨ht, hbb⟩ := h
              rw [← hbb]
              exact ⟨by simp [horig], hb0', hblt,
                Or.inr ⟨e, rfl, ht.symm⟩⟩



/-- C6: for every variation handler, if the generation call was made and
threw, then the corresponding current instruction is restored to its value
from before the call, `outfitHistory` is unchanged, the error is the message
derived from the thrown value, and `isLoading` is false. -/
theorem c6_theorem (s : AppState) :
    (∀ n e t b, handlePoseSelect s n (Except.error e) = some (t, some b) →
      t.currentPoseInstruction = s.currentPoseInstruction ∧
      t.outfitHistory = s.outfitHistory ∧
      t.error = some (getFriendlyErrorMessage e "Failed to change pose") ∧
      t.isLoading = false) ∧
    (∀ n e t b, handleEmotionSelect s n (Except.error e) = some (t, some b) →
      t.currentEmotionInstruction = s.currentEmotionInstruction ∧
      t.outfitHistory = s.outfitHistory ∧
      t.error = some (getFriendlyErrorMessage e "Failed to change emotion") ∧
      t.isLoading = false) ∧
    (∀ n e t b, handleBackgroundChange s n (Except.error e) = some (t, some b) →
      t.currentBackgroundInstruction = s.currentBackgroundInstruction ∧
      t.outfitHistory = s.outfitHistory ∧
      t.error = some (getFriendlyErrorMessage e "Failed to change background") ∧
      t.isLoading = false) ∧
    (∀ fn e t b, handleBackgroundUpload s fn (Except.error e) = some (t, some b) →
      t.currentBackgroundInstruction = s.currentBackgroundInstruction ∧
      t.outfitHistory = s.outfitHistory ∧
      t.error = some (getFriendlyErrorMessage e "Failed to apply custom background") ∧
      t.isLoading = false) ∧
    (∀ n e t b, handleColorChange s n (Except.error e) = some (t, some b) →
      t.currentColorInstruction = s.currentColorInstruction ∧
      t.outfitHistory = s.outfitHistory ∧
      t.error = some (getFriendlyErrorMessage e "Failed to change color") ∧
      t.isLoading = false) := by
  refine ⟨?_, ?_, ?_, ?_, ?_⟩
  · intro n e t b h
    obtain ⟨-, -, -, hcase⟩ := poseSelect_api s n (Except.error e) t b h
    rcases hcase with ⟨u, hu, -⟩ | ⟨e', he', ht⟩
    · simp at hu
    · injection he' with he2
      subst he2
      subst ht
      exact ⟨rfl, rfl, rfl, rfl⟩
  · intro n e t b h
    obtain ⟨-, -, -, hcase⟩ := emotionSelect_api s n (Except.error e) t b h
    rcases hcase with ⟨u, hu, -⟩ | ⟨e', he', ht⟩
    · simp at hu
    · injection he' with he2
      subst he2
      subst ht
      exact ⟨rfl, rfl, rfl, rfl⟩
  · intro n e t b h
    obtain ⟨-, -, -, hcase⟩ := backgroundChange_api s n (Except.error e) t b h
    rcases hcase with ⟨u, hu, -⟩ | ⟨e', he', ht⟩
    · simp at hu
    · injection he' with he2
      subst he2
      subst ht
      exact ⟨rfl, rfl, rfl, rfl⟩
  · intro fn e t b h
    obtain ⟨-, -, -, hcase⟩ := backgroundUpload_api s fn (Except.error e) t b h
    rcases hcase with ⟨u, hu, -⟩ | ⟨e', he', ht⟩
    · simp at hu
    · injection he' with he2
      subst he2
      subst ht
      exact ⟨rfl, rfl, rfl, rfl⟩
  · intro n e t b h
    obtain ⟨-, -, -, hcase⟩ := colorChange_api s n (Except.error e) t b h
    rcases hcase with ⟨u, hu, -⟩ | ⟨e', he', ht⟩
    · simp at hu
    · injection he' with he2
      subst he2
      subst ht
      exact ⟨rfl, rfl, rfl, rfl⟩

theorem successFrame_of_updateLayer (s : AppState) (K u : String)
    (hlt : s.currentOutfitIndex < s.outfitHistory.length) (t : AppState)
    (hh : t.outfitHistory = updateLayer s.outfitHistory s.currentOutfitIndex K u)
    (hi : t.currentOutfitIndex = s.currentOutfitIndex) :
    successFrame s t K u := by
  obtain ⟨L, hL⟩ : ∃ L, s.outfitHistory[s.currentOutfitIndex]? = some L :=
    ⟨s.outfitHistory.get ⟨s.currentOutfitIndex, hlt⟩, by
      simp [List.getElem?_eq_getElem hlt]⟩
  refine ⟨hi, ?_, ?_, ?_, ?_, ?_, ?_⟩
  · rw [hh, updateLayer_length]
  · intro j hj
    rw [hh, updateLayer_getElem?_ne s.outfitHistory s.currentOutfitIndex j K u hj]
  · rw [hh, updateLayer_getElem?_eq, hL]
    simp
  · rw [hh, updateLayer_getElem?_eq, hL]
    simp [rlookup_recordSet_self]
  · intro k' hk'
    rw [hh, updateLayer_getElem?_eq, hL]
    simp [rlookup_recordSet_other L.generatedImages K u k' hk']
  · intro L0 L' hL0 hL'
    rw [hh, updateLayer_getElem?_eq, hL0] at hL'
    simp at hL'
    intro habs
    rw [← hL']
    exact recordSet_append_of_absent L0.generatedImages K u habs

/-- C7 (amended): for every variation call that reached the service and
succeeded, the entry under the composite key (new instruction combined with
the three unchanged current instructions) is set to the new URL in the layer
at `currentOutfitIndex` — appended as a new entry whenever the key was absent
— and everything else is unchanged: same history length, all other layers,
all garments, all entries under other keys, and the index; the adjusted
instruction becomes the new value and the other three are unchanged. -/
theorem c7_theorem (s : AppState) :
    (∀ n u t b, handlePoseSelect s n (Except.ok u) = some (t, some b) →
      successFrame s t (compositeKey n s.currentEmotionInstruction
        s.currentBackgroundInstruction s.currentColorInstruction) u ∧
      t.currentPoseInstruction = n ∧
      t.currentEmotionInstruction = s.currentEmotionInstruction ∧
      t.currentBackgroundInstruction = s.currentBackgroundInstruction ∧
      t.currentColorInstruction = s.currentColorInstruction) ∧
    (∀ n u t b, handleEmotionSelect s n (Except.ok u) = some (t, some b) →
      successFrame s t (compositeKey s.currentPoseInstruction n
        s.currentBackgroundInstruction s.currentColorInstruction) u ∧
      t.currentEmotionInstruction = n ∧
      t.currentPoseInstruction = s.currentPoseInstruction ∧
      t.currentBackgroundInstruction = s.currentBackgroundInstruction ∧
      t.currentColorInstruction = s.currentColorInstruction) ∧
    (∀ n u t b, handleBackgroundChange s n (Except.ok u) = some (t, some b) →
      successFrame s t (compositeKey s.currentPoseInstruction
        s.currentEmotionInstruction n s.currentColorInstruction) u ∧
      t.currentBackgroundInstruction = n ∧
      t.currentPoseInstruction = s.currentPoseInstruction ∧
      t.currentEmotionInstruction = s.currentEmotionInstruction ∧
      t.currentColorInstruction = s.currentColorInstruction) ∧
    (∀ fn u t b, handleBackgroundUpload s fn (Except.ok u) = some (t, some b) →
      successFrame s t (compositeKey s.currentPoseInstruction
        s.currentEmotionInstruction ("Uploaded: " ++ fn) s.currentColorInstruction) u ∧
      t.currentBackgroundInstruction = "Uploaded: " ++ fn ∧
      t.currentPoseInstruction = s.currentPoseInstruction ∧
      t.currentEmotionInstruction = s.currentEmotionInstruction ∧
      t.currentColorInstruction = s.currentColorInstruction) ∧
    (∀ n u t b, handleColorChange s n (Except.ok u) = some (t, some b) →
      successFrame s t (compositeKey s.currentPoseInstruction
        s.currentEmotionInstruction s.currentBackgroundInstruction n) u ∧
      t.currentColorInstruction = n ∧
      t.currentPoseInstruction = s.currentPoseInstruction ∧
      t.currentEmotionInstruction = s.currentEmotionInstruction ∧
      t.currentBackgroundInstruction = s.currentBackgroundInstruction) := by
  refine ⟨?_, ?_, ?_, ?_, ?_⟩
  · intro n u t b h
    obtain ⟨-, -, hlt, hcase⟩ := poseSelect_api s n (Except.ok u) t b h
    rcases hcase with ⟨u', hu, ht⟩ | ⟨e, he, -⟩
    · injection hu with hu2
      subst hu2
      subst ht
      exact ⟨successFrame_of_updateLayer s _ u hlt _ rfl rfl, rfl, rfl, rfl, rfl⟩
    · simp at he
  · intro n u t b h
    obtain ⟨-, -, hlt, hcase⟩ := emotionSelect_api s n (Except.ok u) t b h
    rcases hcase with ⟨u', hu, ht⟩ | ⟨e, he, -⟩
    · injection hu with hu2
      subst hu2
      subst ht
      exact ⟨successFrame_of_updateLayer s _ u hlt _ rfl rfl, rfl, rfl, rfl, rfl⟩
    · simp at he
  · intro n u t b h
    obtain ⟨-, -, hlt, hcase⟩ := backgroundChange_api s n (Except.ok u) t b h
    rcases hcase with ⟨u', hu, ht⟩ | ⟨e, he, -⟩
    · injection hu with hu2
      subst hu2
      subst ht
      exact ⟨successFrame_of_updateLayer s _ u hlt _ rfl rfl, rfl, rfl, rfl, rfl⟩
    · simp at he
  · intro fn u t b h
    obtain ⟨-, -, hlt, hcase⟩ := backgroundUpload_api s fn (Except.ok u) t b h
    rcases hcase with ⟨u', hu, ht⟩ | ⟨e, he, -⟩
    · injection hu with hu2
      subst hu2
      subst ht
      exact ⟨successFrame_of_updateLayer s _ u hlt _ rfl rfl, rfl, rfl, rfl, rfl⟩
    · simp at he
  · intro n u t b h
    obtain ⟨-, -, hlt, hcase⟩ := colorChange_api s n (Except.ok u) t b h
    rcases hcase with ⟨u', hu, ht⟩ | ⟨e, he, -⟩
    · injection hu with hu2
      subst hu2
      subst ht
      exact ⟨successFrame_of_updateLayer s _ u hlt _ rfl rfl, rfl, rfl, rfl, rfl⟩
    · simp at he


theorem c6_witness :
    (c6tPose.currentPoseInstruction = baseModelState.currentPoseInstruction ∧
      c6tPose.outfitHistory = baseModelState.outfitHistory ∧
      c6tPose.error = some (getFriendlyErrorMessage "boom" "Failed to change pose") ∧
      c6tPose.isLoading = false) ∧
    (c6tEmotion.currentEmotionInstruction = baseModelState.currentEmotionInstruction ∧
      c6tEmotion.outfitHistory = baseModelState.outfitHistory ∧
      c6tEmotion.error = some (getFriendlyErrorMessage "boom" "Failed to change emotion") ∧
      c6tEmotion.isLoading = false) ∧
    (c6tBackground.currentBackgroundInstruction =
        baseModelState.currentBackgroundInstruction ∧
      c6tBackground.outfitHistory = baseModelState.outfitHistory ∧
      c6tBackground.error =
        some (getFriendlyErrorMessage "boom" "Failed to change background") ∧
      c6tBackground.isLoading = false) ∧
    (c6tUpload.currentBackgroundInstruction = baseModelState.currentBackgroundInstruction ∧
      c6tUpload.outfitHistory = baseModelState.outfitHistory ∧
      c6tUpload.error =
        some (getFriendlyErrorMessage "boom" "Failed to apply custom background") ∧
      c6tUpload.isLoading = false) ∧
    (c6tColor.currentColorInstruction = twoLayerState.currentColorInstruction ∧
      c6tColor.outfitHistory = twoLayerState.outfitHistory ∧
      c6tColor.error = some (getFriendlyErrorMessage "boom" "Failed to change color") ∧
      c6tColor.isLoading = false) :=
  ⟨(c6_theorem baseModelState).1 "Side profile view" "boom" c6tPose "u0" (by decide),
   (c6_theorem baseModelState).2.1 "Happy" "boom" c6tEmotion "u0" (by decide),
   (c6_theorem baseModelState).2.2.1 "City street at night" "boom" c6tBackground "u0"
     (by decide),
   (c6_theorem baseModelState).2.2.2.1 "bg.png" "boom" c6tUpload "u0" (by decide),
   (c6_theorem twoLayerState).2.2.2.2 "Vibrant Red" "boom" c6tColor "u1" (by decide)⟩

/-- C7 counterexample: on `cex7State` (whose current layer already holds the
target pose key with the empty-string value) the pose variation reaches the
service (base `u0`) and succeeds, yet the current layer's map gains no entry
(its length stays 2) and the pre-existing entry under the key — previously
`""` — is overwritten to `"w"` rather than preserved. -/
theorem c7_counterexample :
    (handlePoseSelect cex7State "P2" (Except.ok "w")).map (fun r => r.2) =
      some (some "u0") ∧
    rlookup ((cex7State.outfitHistory.headD emptyLayer).generatedImages)
      (compositeKey "P2" defaultEmotion defaultBackground defaultColor) = some "" ∧
    (handlePoseSelect cex7State "P2" (Except.ok "w")).map
      (fun r => ((r.1.outfitHistory.headD emptyLayer).generatedImages).length) =
      some ((cex7State.outfitHistory.headD emptyLayer).generatedImages).length ∧
    (handlePoseSelect cex7State "P2" (Except.ok "w")).map
      (fun r => rlookup ((r.1.outfitHistory.headD emptyLayer).generatedImages)
        (compositeKey "P2" defaultEmotion defaultBackground defaultColor)) =
      some (some "w") :=
  ⟨by decide, by decide, by decide, by decide⟩

theorem c7_witness :
    (successFrame baseModelState c7tPose (compositeKey "Side profile view"
        baseModelState.currentEmotionInstruction baseModelState.currentBackgroundInstruction
        baseModelState.currentColorInstruction) "w" ∧
      c7tPose.currentPoseInstruction = "Side profile view" ∧
      c7tPose.currentEmotionInstruction = baseModelState.currentEmotionInstruction ∧
      c7tPose.currentBackgroundInstruction = baseModelState.currentBackgroundInstruction ∧
      c7tPose.currentColorInstruction = baseModelState.currentColorInstruction) ∧
    (successFrame baseModelState c7tEmotion (compositeKey
        baseModelState.currentPoseInstruction "Happy"
        baseModelState.currentBackgroundInstruction
        baseModelState.currentColorInstruction) "w" ∧
      c7tEmotion.currentEmotionInstruction = "Happy" ∧
      c7tEmotion.currentPoseInstruction = baseModelState.currentPoseInstruction ∧
      c7tEmotion.currentBackgroundInstruction = baseModelState.currentBackgroundInstruction ∧
      c7tEmotion.currentColorInstruction = baseModelState.currentColorInstruction) ∧
    (successFrame baseModelState c7tBackground (compositeKey
        baseModelState.currentPoseInstruction baseModelState.currentEmotionInstruction
        "City street at night" baseModelState.currentColorInstruction) "w" ∧
      c7tBackground.currentBackgroundInstruction = "City street at night" ∧
      c7tBackground.currentPoseInstruction = baseModelState.currentPoseInstruction ∧
      c7tBackground.currentEmotionInstruction = baseModelState.currentEmotionInstruction ∧
      c7tBackground.currentColorInstruction = baseModelState.currentColorInstruction) ∧
    (successFrame baseModelState c7tUpload (compositeKey
        baseModelState.currentPoseInstruction baseModelState.currentEmotionInstruction
        ("Uploaded: " ++ "bg.png") baseModelState.currentColorInstruction) "w" ∧
      c7tUpload.currentBackgroundInstruction = "Uploaded: " ++ "bg.png" ∧
      c7tUpload.currentPoseInstruction = baseModelState.currentPoseInstruction ∧
      c7tUpload.currentEmotionInstruction = baseModelState.currentEmotionInstruction ∧
      c7tUpload.currentColorInstruction = baseModelState.currentColorInstruction) ∧
    (successFrame twoLayerState c7tColor (compositeKey
        twoLayerState.currentPoseInstruction twoLayerState.currentEmotionInstruction
        twoLayerState.currentBackgroundInstruction "Vibrant Red") "w" ∧
      c7tColor.currentColorInstruction = "Vibrant Red" ∧
      c7tColor.currentPoseInstruction = twoLayerState.currentPoseInstruction ∧
      c7tColor.currentEmotionInstruction = twoLayerState.currentEmotionInstruction ∧
      c7tColor.currentBackgroundInstruction = twoLayerState.currentBackgroundInstruction) :=
  ⟨(c7_theorem baseModelState).1 "Side profile view" "w" c7tPose "u0" (by decide),
   (c7_theorem baseModelState).2.1 "Happy" "w" c7tEmotion "u0" (by decide),
   (c7_theorem baseModelState).2.2.1 "City street at night" "w" c7tBackground "u0"
     (by decide),
   (c7_theorem baseModelState).2.2.2.1 "bg.png" "w" c7tUpload "u0" (by decide),
   (c7_theorem twoLayerState).2.2.2.2 "Vibrant Red" "w" c7tColor "u1" (by decide)⟩


/-- C3: whenever `handleGarmentSelect` actually reaches the generation call
(display image truthy, not loading, no redo shortcut) and the call succeeds,
the history becomes its first `currentOutfitIndex + 1` layers followed by
exactly one new layer for the selected garment whose map holds exactly the
default-composite-key entry for the new URL; the index increments by one and
the four instructions reset to their defaults. -/
theorem c3_theorem (s : AppState) (g : WardrobeItem) (url : String)
    (h1 : truthyS (displayImageUrl s) = true) (h2 : s.isLoading = false)
    (h3 : redoMatches s g = false) :
    (handleGarmentSelect s g (Except.ok url)).1.outfitHistory =
      s.outfitHistory.take (s.currentOutfitIndex + 1) ++
        [{ garment := some g, generatedImages := [(initialKey, url)] }] ∧
    (handleGarmentSelect s g (Except.ok url)).1.currentOutfitIndex =
      s.currentOutfitIndex + 1 ∧
    (handleGarmentSelect s g (Except.ok url)).1.currentPoseInstruction = defaultPose ∧
    (handleGarmentSelect s g (Except.ok url)).1.currentEmotionInstruction =
      defaultEmotion ∧
    (handleGarmentSelect s g (Except.ok url)).1.currentBackgroundInstruction =
      defaultBackground ∧
    (handleGarmentSelect s g (Except.ok url)).1.currentColorInstruction =
      defaultColor := by
  cases hdisp : displayImageUrl s with
  | none =>
    rw [hdisp] at h1
    simp [truthyS] at h1
  | some base =>
    rw [hdisp] at h1
    have hb : (base == "") = false := by
      cases hx : base == ""
      · rfl
      · rw [truthyS, hx] at h1
        simp at h1
    simp only [handleGarmentSelect, hdisp, hb, h2, Bool.or_self, Bool.false_eq_true,
      if_false, h3, resetInstructions]
    simp

theorem c3_witness :
    (truthyS (displayImageUrl baseModelState) = true ∧ baseModelState.isLoading = false ∧
      redoMatches baseModelState garmentA = false) ∧
    ((handleGarmentSelect baseModelState garmentA (Except.ok "w")).1.outfitHistory =
      baseModelState.outfitHistory.take (baseModelState.currentOutfitIndex + 1) ++
        [{ garment := some garmentA, generatedImages := [(initialKey, "w")] }] ∧
    (handleGarmentSelect baseModelState garmentA (Except.ok "w")).1.currentOutfitIndex =
      baseModelState.currentOutfitIndex + 1 ∧
    (handleGarmentSelect baseModelState garmentA
        (Except.ok "w")).1.currentPoseInstruction = defaultPose ∧
    (handleGarmentSelect baseModelState garmentA
        (Except.ok "w")).1.currentEmotionInstruction = defaultEmotion ∧
    (handleGarmentSelect baseModelState garmentA
        (Except.ok "w")).1.currentBackgroundInstruction = defaultBackground ∧
    (handleGarmentSelect baseModelState garmentA
        (Except.ok "w")).1.currentColorInstruction = defaultColor) :=
  ⟨⟨by decide, by decide, by decide⟩,
    c3_theorem baseModelState garmentA "w" (by decide) (by decide) (by decide)⟩

/-- C5 (amended): each variation handler invokes its generate function
whenever the call with a different instruction (while not loading, with a
non-empty history and a defined current layer) finds the target combination
NOT already cached and a non-empty base image is available — for pose,
emotion and background the display image; for color the Original-color entry.
(On a cache hit the instruction is switched without any service call; see the
counterexample.) -/
theorem c5_theorem (s : AppState) :
    (∀ n r L base, s.isLoading = false → s.outfitHistory ≠ [] →
      n ≠ s.currentPoseInstruction →
      s.outfitHistory[s.currentOutfitIndex]? = some L →
      truthyS (rlookup L.generatedImages (compositeKey n s.currentEmotionInstruction
        s.currentBackgroundInstruction s.currentColorInstruction)) = false →
      displayImageUrl s = some base → (base == "") = false →
      (handlePoseSelect s n r).map (fun x => x.2) = some (some base)) ∧
    (∀ n r L base, s.isLoading = false → s.outfitHistory ≠ [] →
      n ≠ s.currentEmotionInstruction →
      s.outfitHistory[s.currentOutfitIndex]? = some L →
      truthyS (rlookup L.generatedImages (compositeKey s.currentPoseInstruction n
        s.currentBackgroundInstruction s.currentColorInstruction)) = false →
      displayImageUrl s = some base → (base == "") = false →
      (handleEmotionSelect s n r).map (fun x => x.2) = some (some base)) ∧
    (∀ n r L base, s.isLoading = false → s.outfitHistory ≠ [] →
      n ≠ s.currentBackgroundInstruction →
      s.outfitHistory[s.currentOutfitIndex]? = some L →
      truthyS (rlookup L.generatedImages (compositeKey s.currentPoseInstruction
        s.currentEmotionInstruction n s.currentColorInstruction)) = false →
      displayImageUrl s = some base → (base == "") = false →
      (handleBackgroundChange s n r).map (fun x => x.2) = some (some base)) ∧
    (∀ fn r L base, s.isLoading = false → s.outfitHistory ≠ [] →
      s.outfitHistory[s.currentOutfitIndex]? = some L →
      truthyS (rlookup L.generatedImages (compositeKey s.currentPoseInstruction
        s.currentEmotionInstruction ("Uploaded: " ++ fn) s.currentColorInstruction)) =
        false →
      displayImageUrl s = some base → (base == "") = false →
      (handleBackgroundUpload s fn r).map (fun x => x.2) = some (some base)) ∧
    (∀ n r L base, s.isLoading = false → s.outfitHistory ≠ [] →
      n ≠ s.currentColorInstruction → s.currentOutfitIndex ≠ 0 →
      s.outfitHistory[s.currentOutfitIndex]? = some L →
      truthyS (rlookup L.generatedImages (compositeKey s.currentPoseInstruction
        s.currentEmotionInstruction s.currentBackgroundInstruction n)) = false →
      rlookup L.generatedImages (compositeKey s.currentPoseInstruction
        s.currentEmotionInstruction s.currentBackgroundInstruction defaultColor) =
        some base → (base == "") = false →
      (handleColorChange s n r).map (fun x => x.2) = some (some base)) := by
  refine ⟨?_, ?_, ?_, ?_, ?_⟩
  · intro n r L base hld hne hni hcl hk hdisp hb
    have hlen : (s.outfitHistory.length == 0) = false := by
      simp only [beq_eq_false_iff_ne, ne_eq, List.length_eq_zero]
      exact hne
    have hni' : (n == s.currentPoseInstruction) = false := by
      simpa using hni
    simp only [handlePoseSelect, hld, hlen, hni', Bool.or_self, Bool.false_eq_true,
      if_false, hcl, hk, hdisp, hb]
    cases r <;> rfl
  · intro n r L base hld hne hni hcl hk hdisp hb
    have hlen : (s.outfitHistory.length == 0) = false := by
      simp only [beq_eq_false_iff_ne, ne_eq, List.length_eq_zero]
      exact hne
    have hni' : (n == s.currentEmotionInstruction) = false := by
      simpa using hni
    simp only [handleEmotionSelect, hld, hlen, hni', Bool.or_self, Bool.false_eq_true,
      if_false, hcl, hk, hdisp, hb]
    cases r <;> rfl
  · intro n r L base hld hne hni hcl hk hdisp hb
    have hlen : (s.outfitHistory.length == 0) = false := by
      simp only [beq_eq_false_iff_ne, ne_eq, List.length_eq_zero]
      exact hne
    have hni' : (n == s.currentBackgroundInstruction) = false := by
      simpa using hni
    simp only [handleBackgroundChange, hld, hlen, hni', Bool.or_self, Bool.false_eq_true,
      if_false, hcl, hk, hdisp, hb]
    cases r <;> rfl
  · intro fn r L base hld hne hcl hk hdisp hb
    have hlen : (s.outfitHistory.length == 0) = false := by
      simp only [beq_eq_false_iff_ne, ne_eq, List.length_eq_zero]
      exact hne
    simp only [handleBackgroundUpload, hld, hlen, Bool.or_self, Bool.false_eq_true,
      if_false, hcl, hk, hdisp, hb]
    cases r <;> rfl
  · intro n r L base hld hne hni hi0 hcl hk horig hb
    have hlen : (s.outfitHistory.length == 0) = false := by
      simp only [beq_eq_false_iff_ne, ne_eq, List.length_eq_zero]
      exact hne
    have hni' : (n == s.currentColorInstruction) = false := by
      simpa using hni
    have hi0' : (s.currentOutfitIndex == 0) = false := by
      simpa using hi0
    simp only [handleColorChange, hld, hlen, hni', hi0', Bool.or_self, Bool.false_eq_true,
      if_false, hcl, hk, horig, hb]
    cases r <;> rfl

/-- C5 counterexample: a pose adjustment with a different instruction, while
not loading and with a non-empty history, that does NOT invoke the service:
the target combination is already cached, so the handler only switches the
current pose. -/
theorem c5_counterexample :
    cex5State.isLoading = false ∧
    cex5State.outfitHistory ≠ [] ∧
    ("Side profile view" : String) ≠ cex5State.currentPoseInstruction ∧
    handlePoseSelect cex5State "Side profile view" (Except.ok "w") =
      some ({ cex5State with currentPoseInstruction := "Side profile view" }, none) :=
  ⟨by decide, by decide, by decide, by decide⟩

theorem c5_witness :
    ((handlePoseSelect baseModelState "Side profile view" (Except.ok "w")).map
      (fun x => x.2) = some (some "u0")) ∧
    ((handleEmotionSelect baseModelState "Happy" (Except.ok "w")).map
      (fun x => x.2) = some (some "u0")) ∧
    ((handleBackgroundChange baseModelState "City street at night" (Except.ok "w")).map
      (fun x => x.2) = some (some "u0")) ∧
    ((handleBackgroundUpload baseModelState "bg.png" (Except.ok "w")).map
      (fun x => x.2) = some (some "u0")) ∧
    ((handleColorChange twoLayerState "Vibrant Red" (Except.ok "w")).map
      (fun x => x.2) = some (some "u1")) :=
  ⟨(c5_theorem baseModelState).1 "Side profile view" (Except.ok "w")
      { garment := none, generatedImages := [(initialKey, "u0")] } "u0"
      (by decide) (by decide) (by decide) (by decide) (by decide) (by decide) (by decide),
   (c5_theorem baseModelState).2.1 "Happy" (Except.ok "w")
      { garment := none, generatedImages := [(initialKey, "u0")] } "u0"
      (by decide) (by decide) (by decide) (by decide) (by decide) (by decide) (by decide),
   (c5_theorem baseModelState).2.2.1 "City street at night" (Except.ok "w")
      { garment := none, generatedImages := [(initialKey, "u0")] } "u0"
      (by decide) (by decide) (by decide) (by decide) (by decide) (by decide) (by decide),
   (c5_theorem baseModelState).2.2.2.1 "bg.png" (Except.ok "w")
      { garment := none, generatedImages := [(initialKey, "u0")] } "u0"
      (by decide) (by decide) (by decide) (by decide) (by decide) (by decide),
   (c5_theorem twoLayerState).2.2.2.2 "Vibrant Red" (Except.ok "w")
      { garment := some garmentA, generatedImages := [(initialKey, "u1")] } "u1"
      (by decide) (by decide) (by decide) (by decide) (by decide) (by decide) (by decide)
      (by decide)⟩


/-- C8 (amended): from any state with positive index whose layer at the
current index carries garment `g`, provided `isLoading` is false and the
display image after the removal is available (truthy), removing the last
garment and re-selecting `g` restores the index to its original value via the
redo shortcut — no service call, history untouched, instructions reset; and
when the index is 0, `handleRemoveLastGarment` changes nothing. -/
theorem c8_theorem (s : AppState) (g : WardrobeItem) (r : Except String String)
    (h0 : 0 < s.currentOutfitIndex)
    (hg : (s.outfitHistory[s.currentOutfitIndex]?).map OutfitLayer.garment =
      some (some g))
    (h2 : s.isLoading = false)
    (h3 : truthyS (displayImageUrl (handleRemoveLastGarment s)) = true) :
    (handleRemoveLastGarment s).currentOutfitIndex = s.currentOutfitIndex - 1 ∧
    (handleRemoveLastGarment s).outfitHistory = s.outfitHistory ∧
    handleGarmentSelect (handleRemoveLastGarment s) g r =
      (resetInstructions { handleRemoveLastGarment s with
        currentOutfitIndex := s.currentOutfitIndex }, none) ∧
    (∀ s0 : AppState, s0.currentOutfitIndex = 0 → handleRemoveLastGarment s0 = s0) := by
  have hrm : handleRemoveLastGarment s =
      resetInstructions { s with currentOutfitIndex := s.currentOutfitIndex - 1 } := by
    unfold handleRemoveLastGarment
    rw [if_pos h0]
  obtain ⟨L, hL, hLg⟩ : ∃ L, s.outfitHistory[s.currentOutfitIndex]? = some L ∧
      L.garment = some g := by
    cases hx : s.outfitHistory[s.currentOutfitIndex]? with
    | none => rw [hx] at hg; simp at hg
    | some L =>
      rw [hx] at hg
      simp only [Option.map_some', Option.some.injEq] at hg
      exact ⟨L, rfl, hg⟩
  have hidx : s.currentOutfitIndex - 1 + 1 = s.currentOutfitIndex :=
    Nat.succ_pred_eq_of_pos h0
  have hredo : redoMatches (handleRemoveLastGarment s) g = true := by
    unfold redoMatches
    rw [hrm]
    simp only [resetInstructions]
    rw [hidx, hL]
    simp [hLg]
  refine ⟨by rw [hrm]; rfl, by rw [hrm]; rfl, ?_, ?_⟩
  · cases hdisp : displayImageUrl (handleRemoveLastGarment s) with
    | none => rw [hdisp] at h3; simp [truthyS] at h3
    | some base =>
      rw [hdisp] at h3
      have hb : (base == "") = false := by
        cases hx : base == ""
        · rfl
        · rw [truthyS, hx] at h3
          simp at h3
      have hload : (handleRemoveLastGarment s).isLoading = false := by
        rw [hrm]
        exact h2
      simp only [handleGarmentSelect, hdisp, hb, hload, Bool.or_self, Bool.false_eq_true,
        if_false, hredo, if_true]
      have : (handleRemoveLastGarment s).currentOutfitIndex + 1 =
          s.currentOutfitIndex := by
        rw [hrm]
        exact hidx
      rw [this]
  · intro s0 hs0
    unfold handleRemoveLastGarment
    rw [hs0]
    simp

/-- C8 counterexample: in `cex8State` the index is 1 and the layer stepped
away from carries `garmentA`, yet because `isLoading` is true the
remove-then-reselect round trip leaves the index at 0 instead of restoring 1
(`handleRemoveLastGarment` has no loading guard, `handleGarmentSelect`
returns early). -/
theorem c8_counterexample :
    0 < cex8State.currentOutfitIndex ∧
    (cex8State.outfitHistory[cex8State.currentOutfitIndex]?).map OutfitLayer.garment =
      some (some garmentA) ∧
    (handleGarmentSelect (handleRemoveLastGarment cex8State) garmentA
      (Except.ok "w")).1.currentOutfitIndex = 0 ∧
    cex8State.currentOutfitIndex = 1 :=
  ⟨by decide, by decide, by decide, by decide⟩

theorem c8_witness :
    (0 < twoLayerState.currentOutfitIndex ∧
      (twoLayerState.outfitHistory[twoLayerState.currentOutfitIndex]?).map
        OutfitLayer.garment = some (some garmentA) ∧
      twoLayerState.isLoading = false ∧
      truthyS (displayImageUrl (handleRemoveLastGarment twoLayerState)) = true) ∧
    ((handleRemoveLastGarment twoLayerState).currentOutfitIndex =
      twoLayerState.currentOutfitIndex - 1 ∧
    (handleRemoveLastGarment twoLayerState).outfitHistory =
      twoLayerState.outfitHistory ∧
    handleGarmentSelect (handleRemoveLastGarment twoLayerState) garmentA
        (Except.ok "w") =
      (resetInstructions { handleRemoveLastGarment twoLayerState with
        currentOutfitIndex := twoLayerState.currentOutfitIndex }, none) ∧
    (∀ s0 : AppState, s0.currentOutfitIndex = 0 → handleRemoveLastGarment s0 = s0)) :=
  ⟨⟨by decide, by decide, by decide, by decide⟩,
    c8_theorem twoLayerState garmentA (Except.ok "w") (by decide) (by decide) (by decide)
      (by decide)⟩

/-- C10 (amended): `handleColorChange` is a no-op on the base layer; whenever
it invokes the service, the base image is the current layer's Original-color
entry — hence present and non-empty; and when the requested color is not
cached and the Original-color entry is absent or empty (JS-falsy), it sets
the missing-original error and returns with no service call and no other
state change. -/
theorem c10_theorem (s : AppState) :
    (∀ n r, s.currentOutfitIndex = 0 → handleColorChange s n r = some (s, none)) ∧
    (∀ n r t b, handleColorChange s n r = some (t, some b) →
      (s.outfitHistory[s.currentOutfitIndex]?).map
        (fun L => rlookup L.generatedImages (compositeKey s.currentPoseInstruction
          s.currentEmotionInstruction s.currentBackgroundInstruction defaultColor)) =
        some (some b) ∧ (b == "") = false) ∧
    (∀ n r L, s.isLoading = false → s.outfitHistory ≠ [] →
      n ≠ s.currentColorInstruction → s.currentOutfitIndex ≠ 0 →
      s.outfitHistory[s.currentOutfitIndex]? = some L →
      truthyS (rlookup L.generatedImages (compositeKey s.currentPoseInstruction
        s.currentEmotionInstruction s.currentBackgroundInstruction n)) = false →
      truthyS (rlookup L.generatedImages (compositeKey s.currentPoseInstruction
        s.currentEmotionInstruction s.currentBackgroundInstruction defaultColor)) =
        false →
      handleColorChange s n r = some ({ s with error := some missingOriginalMsg }, none)) := by
  refine ⟨?_, ?_, ?_⟩
  · intro n r h
    have h' : (s.currentOutfitIndex == 0) = true := by simpa using h
    simp [handleColorChange, h']
  · intro n r t b h
    obtain ⟨hmap, hb, -, -⟩ := colorChange_api s n r t b h
    exact ⟨hmap, hb⟩
  · intro n r L hld hne hni hi0 hcl hk horig
    have hlen : (s.outfitHistory.length == 0) = false := by
      simp only [beq_eq_false_iff_ne, ne_eq, List.length_eq_zero]
      exact hne
    have hni' : (n == s.currentColorInstruction) = false := by simpa using hni
    have hi0' : (s.currentOutfitIndex == 0) = false := by simpa using hi0
    simp only [handleColorChange, hld, hlen, hni', hi0', Bool.or_self, Bool.false_eq_true,
      if_false, hcl, hk]
    cases hor : rlookup L.generatedImages (compositeKey s.currentPoseInstruction
        s.currentEmotionInstruction s.currentBackgroundInstruction defaultColor) with
    | none => rfl
    | some base =>
      rw [hor, truthyS] at horig
      have hbe : (base == "") = true := by simpa using horig
      simp [hbe]

/-- C10 counterexample: in `cex10State` the requested color is not cached and
the Original-color entry IS present in the layer's map (with value `""`), yet
the handler sets the missing-original error and returns without calling the
service — the claim ties the error/no-call outcome to the entry being absent
and promises generation from the entry whenever the color is uncached. -/
theorem c10_counterexample :
    cex10State.currentOutfitIndex ≠ 0 ∧
    cex10State.isLoading = false ∧
    ("Vibrant Red" : String) ≠ cex10State.currentColorInstruction ∧
    rlookup ((cex10State.outfitHistory.getD 1 emptyLayer).generatedImages)
      (compositeKey defaultPose defaultEmotion defaultBackground "Vibrant Red") = none ∧
    rlookup ((cex10State.outfitHistory.getD 1 emptyLayer).generatedImages)
      (compositeKey defaultPose defaultEmotion defaultBackground defaultColor) =
      some "" ∧
    handleColorChange cex10State "Vibrant Red" (Except.ok "w") =
      some ({ cex10State with error := some missingOriginalMsg }, none) :=
  ⟨by decide, by decide, by decide, by decide, by decide, by decide⟩

theorem c10_witness :
    (handleColorChange baseModelState "Vibrant Red" (Except.ok "w") =
      some (baseModelState, none)) ∧
    ((twoLayerState.outfitHistory[twoLayerState.currentOutfitIndex]?).map
        (fun L => rlookup L.generatedImages (compositeKey
          twoLayerState.currentPoseInstruction twoLayerState.currentEmotionInstruction
          twoLayerState.currentBackgroundInstruction defaultColor)) =
        some (some "u1") ∧ (("u1" : String) == "") = false) ∧
    (handleColorChange c10AbsState "Vibrant Red" (Except.ok "w") =
      some ({ c10AbsState with error := some missingOriginalMsg }, none)) :=
  ⟨(c10_theorem baseModelState).1 "Vibrant Red" (Except.ok "w") (by decide),
   (c10_theorem twoLayerState).2.1 "Vibrant Red" (Except.ok "w") c7tColor "u1" (by decide),
   (c10_theorem c10AbsState).2.2 "Vibrant Red" (Except.ok "w")
     { garment := some garmentA,
       generatedImages := [(compositeKey defaultPose defaultEmotion defaultBackground
         "Deep Blue", "x")] }
     (by decide) (by decide) (by decide) (by decide) (by decide) (by decide) (by decide)⟩

theorem poseSelect_state_cases (s : AppState) (n : String) (r : Except String String)
    (t : AppState) (b : Option String)
    (h : handlePoseSelect s n r = some (t, b)) :
    (t.outfitHistory = s.outfitHistory ∧ t.currentOutfitIndex = s.currentOutfitIndex ∧
      t.modelImageUrl = s.modelImageUrl) ∨
    (∃ k u, t.outfitHistory = updateLayer s.outfitHistory s.currentOutfitIndex k u ∧
      t.currentOutfitIndex = s.currentOutfitIndex ∧ t.modelImageUrl = s.modelImageUrl) := by
  by_cases hg : (s.isLoading || s.outfitHistory.length == 0 ||
      n == s.currentPoseInstruction) = true
  · simp only [handlePoseSelect, hg, if_true, Option.some.injEq, Prod.mk.injEq] at h
    obtain ⟨ht, -⟩ := h
    exact Or.inl ⟨by rw [← ht], by rw [← ht], by rw [← ht]⟩
  · have hg' : (s.isLoading || s.outfitHistory.length == 0 ||
      n == s.currentPoseInstruction) = false := by simpa using hg
    cases hcl : s.outfitHistory[s.currentOutfitIndex]? with
    | none => simp [handlePoseSelect, hg', hcl] at h
    | some cl =>
      cases hk : truthyS (rlookup cl.generatedImages
          (compositeKey n s.currentEmotionInstruction
            s.currentBackgroundInstruction s.currentColorInstruction)) with
      | true =>
        simp only [handlePoseSelect, hg', hcl, hk, Bool.false_eq_true, if_false, if_true,
          Option.some.injEq, Prod.mk.injEq] at h
        obtain ⟨ht, -⟩ := h
        exact Or.inl ⟨by rw [← ht], by rw [← ht], by rw [← ht]⟩
      | false =>
        cases hdisp : displayImageUrl s with
        | none =>
          simp only [handlePoseSelect, hg', hcl, hk, hdisp, Bool.false_eq_true, if_false,
            Option.some.injEq, Prod.mk.injEq] at h
          obtain ⟨ht, -⟩ := h
          exact Or.inl ⟨by rw [← ht], by rw [← ht], by rw [← ht]⟩
        | some base =>
          by_cases hb0 : (base == "") = true
          · simp only [handlePoseSelect, hg', hcl, hk, hdisp, hb0, Bool.false_eq_true, if_false,
              if_true, Option.some.injEq, Prod.mk.injEq] at h
            obtain ⟨ht, -⟩ := h
            exact Or.inl ⟨by rw [← ht], by rw [← ht], by rw [← ht]⟩
          · have hb0' : (base == "") = false := by simpa using hb0
            cases r with
            | ok u =>
              simp only [handlePoseSelect, hg', hcl, hk, hdisp, hb0', Bool.false_eq_true,
                if_false, Option.some.injEq, Prod.mk.injEq] at h
              obtain ⟨ht, -⟩ := h
              exact Or.inr ⟨compositeKey n s.currentEmotionInstruction
                s.currentBackgroundInstruction s.currentColorInstruction, u,
                by rw [← ht], by rw [← ht], by rw [← ht]⟩
            | error e =>
              simp only [handlePoseSelect, hg', hcl, hk, hdisp, hb0', Bool.false_eq_true,
                if_false, Option.some.injEq, Prod.mk.injEq] at h
              obtain ⟨ht, -⟩ := h
              exact Or.inl ⟨by rw [← ht], by rw [← ht], by rw [← ht]⟩

theorem emotionSelect_state_cases (s : AppState) (n : String) (r : Except String String)
    (t : AppState) (b : Option String)
    (h : handleEmotionSelect s n r = some (t, b)) :
    (t.outfitHistory = s.outfitHistory ∧ t.currentOutfitIndex = s.currentOutfitIndex ∧
      t.modelImageUrl = s.modelImageUrl) ∨
    (∃ k u, t.outfitHistory = updateLayer s.outfitHistory s.currentOutfitIndex k u ∧
      t.currentOutfitIndex = s.currentOutfitIndex ∧ t.modelImageUrl = s.modelImageUrl) := by
  by_cases hg : (s.isLoading || s.outfitHistory.length == 0 ||
      n == s.currentEmotionInstruction) = true
  · simp only [handleEmotionSelect, hg, if_true, Option.some.injEq, Prod.mk.injEq] at h
    obtain ⟨ht, -⟩ := h
    exact Or.inl ⟨by rw [← ht], by rw [← ht], by rw [← ht]⟩
  · have hg' : (s.isLoading || s.outfitHistory.length == 0 ||
      n == s.currentEmotionInstruction) = false := by simpa using hg
    cases hcl : s.outfitHistory[s.currentOutfitIndex]? with
    | none => simp [handleEmotionSelect, hg', hcl] at h
    | some cl =>
      cases hk : truthyS (rlookup cl.generatedImages
          (compositeKey s.currentPoseInstruction n
            s.currentBackgroundInstruction s.currentColorInstruction)) with
      | true =>
        simp only [handleEmotionSelect, hg', hcl, hk, Bool.false_eq_true, if_false, if_true,
          Option.some.injEq, Prod.mk.injEq] at h
        obtain ⟨ht, -⟩ := h
        exact Or.inl ⟨by rw [← ht], by rw [← ht], by rw [← ht]⟩
      | false =>
        cases hdisp : displayImageUrl s with
        | none =>
          simp only [handleEmotionSelect, hg', hcl, hk, hdisp, Bool.false_eq_true, if_false,
            Option.some.injEq, Prod.mk.injEq] at h
          obtain ⟨ht, -⟩ := h
          exact Or.inl ⟨by rw [← ht], by rw [← ht], by rw [← ht]⟩
        | some base =>
          by_cases hb0 : (base == "") = true
          · simp only [handleEmotionSelect, hg', hcl, hk, hdisp, hb0, Bool.false_eq_true, if_false,
              if_true, Option.some.injEq, Prod.mk.injEq] at h
            obtain ⟨ht, -⟩ := h
            exact Or.inl ⟨by rw [← ht], by rw [← ht], by rw [← ht]⟩
          · have hb0' : (base == "") = false := by simpa using hb0
            cases r with
            | ok u =>
              simp only [handleEmotionSelect, hg', hcl, hk, hdisp, hb0', Bool.false_eq_true,
                if_false, Option.some.injEq, Prod.mk.injEq] at h
              obtain ⟨ht, -⟩ := h
              exact Or.inr ⟨compositeKey s.currentPoseInstruction n
                s.currentBackgroundInstruction s.currentColorInstruction, u,
                by rw [← ht], by rw [← ht], by rw [← ht]⟩
            | error e =>
              simp only [handleEmotionSelect, hg', hcl, hk, hdisp, hb0', Bool.false_eq_true,
                if_false, Option.some.injEq, Prod.mk.injEq] at h
              obtain ⟨ht, -⟩ := h
              exact Or.inl ⟨by rw [← ht], by rw [← ht], by rw [← ht]⟩

theorem backgroundChange_state_cases (s : AppState) (n : String) (r : Except String String)
    (t : AppState) (b : Option String)
    (h : handleBackgroundChange s n r = some (t, b)) :
    (t.outfitHistory = s.outfitHistory ∧ t.currentOutfitIndex = s.currentOutfitIndex ∧
      t.modelImageUrl = s.modelImageUrl) ∨
    (∃ k u, t.outfitHistory = updateLayer s.outfitHistory s.currentOutfitIndex k u ∧
      t.currentOutfitIndex = s.currentOutfitIndex ∧ t.modelImageUrl = s.modelImageUrl) := by
  by_cases hg : (s.isLoading || s.outfitHistory.length == 0 ||
      n == s.currentBackgroundInstruction) = true
  · simp only [handleBackgroundChange, hg, if_true, Option.some.injEq, Prod.mk.injEq] at h
    obtain ⟨ht, -⟩ := h
    exact Or.inl ⟨by rw [← ht], by rw [← ht], by rw [← ht]⟩
  · have hg' : (s.isLoading || s.outfitHistory.length == 0 ||
      n == s.currentBackgroundInstruction) = false := by simpa using hg
    cases hcl : s.outfitHistory[s.currentOutfitIndex]? with
    | none => simp [handleBackgroundChange, hg', hcl] at h
    | some cl =>
      cases hk : truthyS (rlookup cl.generatedImages
          (compositeKey s.currentPoseInstruction s.currentEmotionInstruction
            n s.currentColorInstruction)) with
      | true =>
        simp only [handleBackgroundChange, hg', hcl, hk, Bool.false_eq_true, if_false, if_true,
          Option.some.injEq, Prod.mk.injEq] at h
        obtain ⟨ht, -⟩ := h
        exact Or.inl ⟨by rw [← ht], by rw [← ht], by rw [← ht]⟩
      | false =>
        cases hdisp : displayImageUrl s with
        | none =>
          simp only [handleBackgroundChange, hg', hcl, hk, hdisp, Bool.false_eq_true, if_false,
            Option.some.injEq, Prod.mk.injEq] at h
          obtain ⟨ht, -⟩ := h
          exact Or.inl ⟨by rw [← ht], by rw [← ht], by rw [← ht]⟩
        | some base =>
          by_cases hb0 : (base == "") = true
          · simp only [handleBackgroundChange, hg', hcl, hk, hdisp, hb0, Bool.false_eq_true, if_false,
              if_true, Option.some.injEq, Prod.mk.injEq] at h
            obtain ⟨ht, -⟩ := h
            exact Or.inl ⟨by rw [← ht], by rw [← ht], by rw [← ht]⟩
          · have hb0' : (base == "") = false := by simpa using hb0
            cases r with
            | ok u =>
              simp only [handleBackgroundChange, hg', hcl, hk, hdisp, hb0', Bool.false_eq_true,
                if_false, Option.some.injEq, Prod.mk.injEq] at h
              obtain ⟨ht, -⟩ := h
              exact Or.inr ⟨compositeKey s.currentPoseInstruction s.currentEmotionInstruction
                n s.currentColorInstruction, u,
                by rw [← ht], by rw [← ht], by rw [← ht]⟩
            | error e =>
              simp only [handleBackgroundChange, hg', hcl, hk, hdisp, hb0', Bool.false_eq_true,
                if_false, Option.some.injEq, Prod.mk.injEq] at h
              obtain ⟨ht, -⟩ := h
              exact Or.inl ⟨by rw [← ht], by rw [← ht], by rw [← ht]⟩

theorem backgroundUpload_state_cases (s : AppState) (n : String) (r : Except String String)
    (t : AppState) (b : Option String)
    (h : handleBackgroundUpload s n r = some (t, b)) :
    (t.outfitHistory = s.outfitHistory ∧ t.currentOutfitIndex = s.currentOutfitIndex ∧
      t.modelImageUrl = s.modelImageUrl) ∨
    (∃ k u, t.outfitHistory = updateLayer s.outfitHistory s.currentOutfitIndex k u ∧
      t.currentOutfitIndex = s.currentOutfitIndex ∧ t.modelImageUrl = s.modelImageUrl) := by
  by_cases hg : (s.isLoading || s.outfitHistory.length == 0) = true
  · simp only [handleBackgroundUpload, hg, if_true, Option.some.injEq, Prod.mk.injEq] at h
    obtain ⟨ht, -⟩ := h
    exact Or.inl ⟨by rw [← ht], by rw [← ht], by rw [← ht]⟩
  · have hg' : (s.isLoading || s.outfitHistory.length == 0) = false := by simpa using hg
    cases hcl : s.outfitHistory[s.currentOutfitIndex]? with
    | none => simp [handleBackgroundUpload, hg', hcl] at h
    | some cl =>
      cases hk : truthyS (rlookup cl.generatedImages
          (compositeKey s.currentPoseInstruction s.currentEmotionInstruction
            ("Uploaded: " ++ n) s.currentColorInstruction)) with
      | true =>
        simp only [handleBackgroundUpload, hg', hcl, hk, Bool.false_eq_true, if_false, if_true,
          Option.some.injEq, Prod.mk.injEq] at h
        obtain ⟨ht, -⟩ := h
        exact Or.inl ⟨by rw [← ht], by rw [← ht], by rw [← ht]⟩
      | false =>
        cases hdisp : displayImageUrl s with
        | none =>
          simp only [handleBackgroundUpload, hg', hcl, hk, hdisp, Bool.false_eq_true, if_false,
            Option.some.injEq, Prod.mk.injEq] at h
          obtain ⟨ht, -⟩ := h
          exact Or.inl ⟨by rw [← ht], by rw [← ht], by rw [← ht]⟩
        | some base =>
          by_cases hb0 : (base == "") = true
          · simp only [handleBackgroundUpload, hg', hcl, hk, hdisp, hb0, Bool.false_eq_true, if_false,
              if_true, Option.some.injEq, Prod.mk.injEq] at h
            obtain ⟨ht, -⟩ := h
            exact Or.inl ⟨by rw [← ht], by rw [← ht], by rw [← ht]⟩
          · have hb0' : (base == "") = false := by simpa using hb0
            cases r with
            | ok u =>
              simp only [handleBackgroundUpload, hg', hcl, hk, hdisp, hb0', Bool.false_eq_true,
                if_false, Option.some.injEq, Prod.mk.injEq] at h
              obtain ⟨ht, -⟩ := h
              exact Or.inr ⟨compositeKey s.currentPoseInstruction s.currentEmotionInstruction
                ("Uploaded: " ++ n) s.currentColorInstruction, u,
                by rw [← ht], by rw [← ht], by rw [← ht]⟩
            | error e =>
              simp only [handleBackgroundUpload, hg', hcl, hk, hdisp, hb0', Bool.false_eq_true,
                if_false, Option.some.injEq, Prod.mk.injEq] at h
              obtain ⟨ht, -⟩ := h
              exact Or.inl ⟨by rw [← ht], by rw [← ht], by rw [← ht]⟩

theorem colorChange_state_cases (s : AppState) (n : String) (r : Except String String)
    (t : AppState) (b : Option String)
    (h : handleColorChange s n r = some (t, b)) :
    (t.outfitHistory = s.outfitHistory ∧ t.currentOutfitIndex = s.currentOutfitIndex ∧
      t.modelImageUrl = s.modelImageUrl) ∨
    (∃ k u, t.outfitHistory = updateLayer s.outfitHistory s.currentOutfitIndex k u ∧
      t.currentOutfitIndex = s.currentOutfitIndex ∧ t.modelImageUrl = s.modelImageUrl) := by
  by_cases hg : (s.isLoading || s.outfitHistory.length == 0 ||
      n == s.currentColorInstruction || s.currentOutfitIndex == 0) = true
  · simp only [handleColorChange, hg, if_true, Option.some.injEq, Prod.mk.injEq] at h
    obtain ⟨ht, -⟩ := h
    exact Or.inl ⟨by rw [← ht], by rw [← ht], by rw [← ht]⟩
  · have hg' : (s.isLoading || s.outfitHistory.length == 0 ||
        n == s.currentColorInstruction || s.currentOutfitIndex == 0) = false := by
      simpa using hg
    cases hcl : s.outfitHistory[s.currentOutfitIndex]? with
    | none => simp [handleColorChange, hg', hcl] at h
    | some cl =>
      cases hk : truthyS (rlookup cl.generatedImages
          (compositeKey s.currentPoseInstruction s.currentEmotionInstruction
            s.currentBackgroundInstruction n)) with
      | true =>
        simp only [handleColorChange, hg', hcl, hk, Bool.false_eq_true, if_false, if_true,
          Option.some.injEq, Prod.mk.injEq] at h
        obtain ⟨ht, -⟩ := h
        exact Or.inl ⟨by rw [← ht], by rw [← ht], by rw [← ht]⟩
      | false =>
        cases horig : rlookup cl.generatedImages
            (compositeKey s.currentPoseInstruction s.currentEmotionInstruction
              s.currentBackgroundInstruction defaultColor) with
        | none =>
          simp only [handleColorChange, hg', hcl, hk, horig, Bool.false_eq_true, if_false,
            Option.some.injEq, Prod.mk.injEq] at h
          obtain ⟨ht, -⟩ := h
          exact Or.inl ⟨by rw [← ht], by rw [← ht], by rw [← ht]⟩
        | some base =>
          by_cases hb0 : (base == "") = true
          · simp only [handleColorChange, hg', hcl, hk, horig, hb0, Bool.false_eq_true,
              if_false, if_true, Option.some.injEq, Prod.mk.injEq] at h
            obtain ⟨ht, -⟩ := h
            exact Or.inl ⟨by rw [← ht], by rw [← ht], by rw [← ht]⟩
          · have hb0' : (base == "") = false := by simpa using hb0
            cases r with
            | ok u =>
              simp only [handleColorChange, hg', hcl, hk, horig, hb0', Bool.false_eq_true,
                if_false, Option.some.injEq, Prod.mk.injEq] at h
              obtain ⟨ht, -⟩ := h
              exact Or.inr ⟨compositeKey s.currentPoseInstruction s.currentEmotionInstruction
                s.currentBackgroundInstruction n, u,
                by rw [← ht], by rw [← ht], by rw [← ht]⟩
            | error e =>
              simp only [handleColorChange, hg', hcl, hk, horig, hb0', Bool.false_eq_true,
                if_false, Option.some.injEq, Prod.mk.injEq] at h
              obtain ⟨ht, -⟩ := h
              exact Or.inl ⟨by rw [← ht], by rw [← ht], by rw [← ht]⟩



theorem inv_iff (s : AppState) :
    Inv s ↔ ((s.outfitHistory = [] → s.currentOutfitIndex = 0) ∧
      (s.outfitHistory ≠ [] → s.currentOutfitIndex < s.outfitHistory.length) ∧
      (∀ L ∈ s.outfitHistory, L.generatedImages ≠ []) ∧
      (∀ i L, s.outfitHistory[i]? = some L →
        (i = 0 → L.garment = none) ∧ (0 < i → L.garment ≠ none))) := by
  unfold Inv
  constructor
  · rintro ⟨a, b, c, d⟩
    refine ⟨a, b, c, ?_⟩
    intro i L hL
    obtain ⟨hi, hval⟩ := List.getElem?_eq_some.mp hL
    have hd := d i hi
    rw [List.get_eq_getElem] at hd
    rw [hval] at hd
    exact hd
  · rintro ⟨a, b, c, d⟩
    refine ⟨a, b, c, ?_⟩
    intro i hi
    have hd := d i (s.outfitHistory.get ⟨i, hi⟩)
      (by rw [List.getElem?_eq_getElem hi, List.get_eq_getElem])
    exact hd

theorem sinv_fields (s t : AppState) (hs : SInv s)
    (h1 : t.outfitHistory = s.outfitHistory)
    (h2 : t.currentOutfitIndex = s.currentOutfitIndex)
    (h3 : t.modelImageUrl = s.modelImageUrl) : SInv t := by
  unfold SInv at hs ⊢
  rw [inv_iff] at hs ⊢
  rw [h1, h2, h3]
  exact hs

theorem updateLayer_eq_nil (h : List OutfitLayer) (i : Nat) (k u : String)
    (hx : updateLayer h i k u = []) : h = [] := by
  cases h with
  | nil => rfl
  | cons a t => cases i <;> simp [updateLayer] at hx

theorem sinv_update (s : AppState) (k u : String) (t : AppState) (hs : SInv s)
    (hh : t.outfitHistory = updateLayer s.outfitHistory s.currentOutfitIndex k u)
    (h2 : t.currentOutfitIndex = s.currentOutfitIndex)
    (h3 : t.modelImageUrl = s.modelImageUrl) : SInv t := by
  unfold SInv at hs ⊢
  rw [inv_iff] at hs ⊢
  obtain ⟨⟨a, b, c, d⟩, e⟩ := hs
  rw [hh, h2, h3]
  refine ⟨⟨?_, ?_, ?_, ?_⟩, ?_⟩
  · intro hemp
    exact a (updateLayer_eq_nil _ _ _ _ hemp)
  · intro hne
    rw [updateLayer_length]
    refine b ?_
    intro hx
    rw [hx] at hne
    simp [updateLayer] at hne
  · exact updateLayer_images_ne_nil _ _ _ _ c
  · intro i L hL
    by_cases hi : i = s.currentOutfitIndex
    · subst hi
      rw [updateLayer_getElem?_eq] at hL
      cases hx : s.outfitHistory[s.currentOutfitIndex]? with
      | none => rw [hx] at hL; simp at hL
      | some L0 =>
        rw [hx] at hL
        simp only [Option.map_some', Option.some.injEq] at hL
        have hd := d s.currentOutfitIndex L0 hx
        rw [← hL]
        simpa using hd
    · rw [updateLayer_getElem?_ne _ _ _ _ _ hi] at hL
      exact d i L hL
  · intro hemp
    exact e (updateLayer_eq_nil _ _ _ _ hemp)

theorem sinv_modelFinalized (s : AppState) (url : String) :
    SInv (handleModelFinalized s url) := by
  unfold SInv
  rw [inv_iff]
  refine ⟨⟨?_, ?_, ?_, ?_⟩, ?_⟩
  · intro _
    rfl
  · intro _
    simp [handleModelFinalized, resetInstructions]
  · intro L hm
    simp only [handleModelFinalized, resetInstructions, List.mem_singleton] at hm
    rw [hm]
    simp
  · intro i L hL
    cases i with
    | zero =>
      simp only [handleModelFinalized, resetInstructions, List.getElem?_cons_zero,
        Option.some.injEq] at hL
      rw [← hL]
      exact ⟨fun _ => rfl, fun h0 => absurd h0 (by simp)⟩
    | succ j =>
      simp [handleModelFinalized, resetInstructions] at hL
  · intro hemp
    simp [handleModelFinalized, resetInstructions] at hemp

theorem sinv_startOver (s : AppState) : SInv (handleStartOver s) := by
  unfold SInv
  rw [inv_iff]
  refine ⟨⟨?_, ?_, ?_, ?_⟩, ?_⟩
  · intro _
    rfl
  · intro hne
    exact absurd rfl hne
  · intro L hm
    simp [handleStartOver, resetInstructions] at hm
  · intro i L hL
    simp [handleStartOver, resetInstructions] at hL
  · intro _
    rfl

theorem sinv_removeLast (s : AppState) (hs : SInv s) :
    SInv (handleRemoveLastGarment s) := by
  unfold handleRemoveLastGarment
  by_cases h0 : 0 < s.currentOutfitIndex
  · rw [if_pos h0]
    unfold SInv at hs ⊢
    rw [inv_iff] at hs ⊢
    obtain ⟨⟨a, b, c, d⟩, e⟩ := hs
    simp only [resetInstructions]
    refine ⟨⟨?_, ?_, c, d⟩, e⟩
    · intro hemp
      rw [a hemp]
    · intro hne
      exact Nat.lt_of_le_of_lt (Nat.sub_le _ _) (b hne)
  · rw [if_neg h0]
    exact hs

theorem sinv_append (s : AppState) (g : WardrobeItem) (url : String) (t : AppState)
    (hs : SInv s) (hne : s.outfitHistory ≠ [])
    (hh : t.outfitHistory = s.outfitHistory.take (s.currentOutfitIndex + 1) ++
      [{ garment := some g, generatedImages := [(initialKey, url)] }])
    (h2 : t.currentOutfitIndex = s.currentOutfitIndex + 1)
    (h3 : t.modelImageUrl = s.modelImageUrl) : SInv t := by
  unfold SInv at hs ⊢
  rw [inv_iff] at hs ⊢
  obtain ⟨⟨a, b, c, d⟩, e⟩ := hs
  have hlt : s.currentOutfitIndex < s.outfitHistory.length := b hne
  have hlen : (s.outfitHistory.take (s.currentOutfitIndex + 1)).length =
      s.currentOutfitIndex + 1 := by
    rw [List.length_take]
    exact Nat.min_eq_left (Nat.succ_le_of_lt hlt)
  rw [hh, h2, h3]
  refine ⟨⟨?_, ?_, ?_, ?_⟩, ?_⟩
  · intro hemp
    simp at hemp
  · intro _
    rw [List.length_append, hlen]
    simp
  · intro L hm
    rw [List.mem_append] at hm
    rcases hm with hm | hm
    · exact c L (List.take_subset _ _ hm)
    · rw [List.mem_singleton] at hm
      rw [hm]
      simp
  · intro i L hL
    by_cases hi : i < s.currentOutfitIndex + 1
    · rw [List.getElem?_append_left (by rw [hlen]; exact hi)] at hL
      rw [List.getElem?_take] at hL
      rw [if_pos hi] at hL
      exact d i L hL
    · have hge : s.currentOutfitIndex + 1 ≤ i := Nat.le_of_not_lt hi
      rw [List.getElem?_append_right (by rw [hlen]; exact hge)] at hL
      rw [hlen] at hL
      cases hd2 : i - (s.currentOutfitIndex + 1) with
      | zero =>
        rw [hd2] at hL
        simp only [List.getElem?_cons_zero, Option.some.injEq] at hL
        constructor
        · intro h0
          omega
        · intro _
          rw [← hL]
          simp
      | succ m =>
        rw [hd2] at hL
        simp at hL
  · intro hemp
    simp at hemp

theorem sinv_garmentSelect (s : AppState) (g : WardrobeItem) (r : Except String String)
    (hs : SInv s) : SInv (handleGarmentSelect s g r).1 := by
  cases hdisp : displayImageUrl s with
  | none =>
    have : (handleGarmentSelect s g r).1 = s := by
      simp [handleGarmentSelect, hdisp]
    rw [this]
    exact hs
  | some base =>
    by_cases hbl : (base == "" || s.isLoading) = true
    · have : (handleGarmentSelect s g r).1 = s := by
        simp only [handleGarmentSelect, hdisp, hbl, if_true]
      rw [this]
      exact hs
    · have hbl' : (base == "" || s.isLoading) = false := by simpa using hbl
      have hbase : (base == "") = false := (Bool.or_eq_false_iff.mp hbl').1
      have hne : s.outfitHistory ≠ [] := by
        intro hemp
        have hd : displayImageUrl s = s.modelImageUrl := by
          unfold displayImageUrl
          rw [hemp]
          rfl
        rw [hd] at hdisp
        have hmod := hs.2 hemp
        rw [hdisp, truthyS, hbase] at hmod
        simp at hmod
      by_cases hredo : redoMatches s g = true
      · have hbound : s.currentOutfitIndex + 1 < s.outfitHistory.length := by
          unfold redoMatches at hredo
          cases hx : s.outfitHistory[s.currentOutfitIndex + 1]? with
          | none => rw [hx] at hredo; simp at hredo
          | some L => exact (List.getElem?_eq_some.mp hx).1
        have ht : (handleGarmentSelect s g r).1 =
            resetInstructions { s with currentOutfitIndex := s.currentOutfitIndex + 1 } := by
          simp only [handleGarmentSelect, hdisp, hbl', Bool.false_eq_true, if_false,
            hredo, if_true]
        rw [ht]
        unfold SInv at hs ⊢
        rw [inv_iff] at hs ⊢
        obtain ⟨⟨a, b, c, d⟩, e⟩ := hs
        simp only [resetInstructions]
        exact ⟨⟨fun hemp => absurd hemp hne, fun _ => hbound, c, d⟩,
          fun hemp => absurd hemp hne⟩
      · have hredo' : redoMatches s g = false := by simpa using hredo
        cases r with
        | error e =>
          have ht : (handleGarmentSelect s g (Except.error e)).1 = resetInstructions
              { s with error := some (getFriendlyErrorMessage e "Failed to apply garment"),
                       isLoading := false, loadingMessage := "" } := by
            simp only [handleGarmentSelect, hdisp, hbl', Bool.false_eq_true, if_false,
              hredo']
          rw [ht]
          exact sinv_fields s _ hs rfl rfl rfl
        | ok u =>
          have ht : (handleGarmentSelect s g (Except.ok u)).1.outfitHistory =
              s.outfitHistory.take (s.currentOutfitIndex + 1) ++
                [{ garment := some g, generatedImages := [(initialKey, u)] }] ∧
              (handleGarmentSelect s g (Except.ok u)).1.currentOutfitIndex =
                s.currentOutfitIndex + 1 ∧
              (handleGarmentSelect s g (Except.ok u)).1.modelImageUrl =
                s.modelImageUrl := by
            simp only [handleGarmentSelect, hdisp, hbl', Bool.false_eq_true, if_false,
              hredo', resetInstructions]
            simp
          exact sinv_append s g u _ hs hne ht.1 ht.2.1 ht.2.2

theorem sinv_variation (s t : AppState) (hs : SInv s)
    (hc : (t.outfitHistory = s.outfitHistory ∧
        t.currentOutfitIndex = s.currentOutfitIndex ∧
        t.modelImageUrl = s.modelImageUrl) ∨
      (∃ k u, t.outfitHistory = updateLayer s.outfitHistory s.currentOutfitIndex k u ∧
        t.currentOutfitIndex = s.currentOutfitIndex ∧
        t.modelImageUrl = s.modelImageUrl)) : SInv t := by
  rcases hc with ⟨h1, h2, h3⟩ | ⟨k, u, h1, h2, h3⟩
  · exact sinv_fields s t hs h1 h2 h3
  · exact sinv_update s k u t hs h1 h2 h3

/-- C4: every state reachable from the initial state by the operations of the
App component satisfies the invariant: empty history forces index 0, a
non-empty history keeps the index strictly in bounds, every layer's image map
is non-empty, the base layer (index 0) has no garment and every later layer
has one. -/
theorem c4_theorem (s : AppState) (h : Reachable s) : Inv s := by
  suffices hs : SInv s from hs.1
  induction h with
  | init =>
    unfold SInv Inv
    decide
  | modelFinalized s0 url _ _ => exact sinv_modelFinalized s0 url
  | startOver s0 _ _ => exact sinv_startOver s0
  | garmentSelect s0 g r _ ih => exact sinv_garmentSelect s0 g r ih
  | removeLast s0 _ ih => exact sinv_removeLast s0 ih
  | poseSelect s0 s1 n r b _ hstep ih =>
    exact sinv_variation s0 s1 ih (poseSelect_state_cases s0 n r s1 b hstep)
  | emotionSelect s0 s1 n r b _ hstep ih =>
    exact sinv_variation s0 s1 ih (emotionSelect_state_cases s0 n r s1 b hstep)
  | backgroundChange s0 s1 n r b _ hstep ih =>
    exact sinv_variation s0 s1 ih (backgroundChange_state_cases s0 n r s1 b hstep)
  | backgroundUpload s0 s1 fn r b _ hstep ih =>
    exact sinv_variation s0 s1 ih (backgroundUpload_state_cases s0 fn r s1 b hstep)
  | colorChange s0 s1 n r b _ hstep ih =>
    exact sinv_variation s0 s1 ih (colorChange_state_cases s0 n r s1 b hstep)

theorem c4_witness :
    Reachable (handleModelFinalized initState "m0") ∧
    Inv (handleModelFinalized initState "m0") := by
  have hr : Reachable (handleModelFinalized initState "m0") :=
    Reachable.modelFinalized initState "m0" Reachable.init
  exact ⟨hr, c4_theorem (handleModelFinalized initState "m0") hr⟩

end Outfit
